/-
Verification of the machinate rendering core against its design notes.

This file gives a shallow embedding, in Lean 4, of the parts of the
repository's Vulkan rendering core that the design document makes
checkable claims about:

* `update_lightcull_tilecounts` (src/vk/context.cpp) — light-culling tile grid;
* `record_image_layout_change` (src/vk/context.cpp) — the enumerated set of
  supported image layout transitions;
* the per-frame submission chain `submit_prepass` / `compute_lightcull` /
  `submit_geometry` / `render_imgui` / `present_frame` (src/vk/context.cpp)
  as driven by the render-thread loop (main translation unit);
* `ubo::update` (vk/ubo.ipp) and `vma_buffer::copy_to` (vk/buffer.cpp);
* `vma_buffer` / `vma_image` move and destroy semantics
  (vk/buffer.hpp, vk/buffer.cpp, vk/image.cpp);
* the marching-cubes polygoniser `polygonise` / `vert_interp` and the
  heightmap triangulation `model::from_heightmap` (src/vk/model.cpp).

Machine integers that never overflow on the modelled domain are embedded as
`Nat`; `float` scalars are embedded as exact arithmetic (`ℚ` where the claim
is computational, `ℝ` where it involves square roots).
-/

import Mathlib

namespace Machinate

/-! # Light-culling tile grid (src/vk/context.cpp) -/

/-- `TILE_SIZE` constant from src/vk/context.cpp line 47. -/
def TILE_SIZE : ℕ := 16

/-- `MAX_POINTLIGHTS_PER_TILE` constant from src/vk/context.cpp line 47. -/
def MAX_POINTLIGHTS_PER_TILE : ℕ := 1023

/-- `TILE_BUFFERSIZE` from src/vk/context.cpp lines 48-49:
`sizeof(uint32_t) + sizeof(std::array<uint32_t, MAX_POINTLIGHTS_PER_TILE>)`. -/
def TILE_BUFFERSIZE : ℕ := 4 + 4 * MAX_POINTLIGHTS_PER_TILE

/-- `context::update_lightcull_tilecounts` (src/vk/context.cpp lines 1493-1496):
`{ (extent.width - 1) / TILE_SIZE + 1, (extent.height - 1) / TILE_SIZE + 1 }`.
The subtraction is `uint32_t` subtraction; for `w ≥ 1`, `h ≥ 1` (the domain the
claims quantify over) it coincides with truncated `Nat` subtraction. -/
def update_lightcull_tilecounts (w h : ℕ) : ℕ × ℕ :=
  ((w - 1) / TILE_SIZE + 1, (h - 1) / TILE_SIZE + 1)

/-! # Image layout transitions (src/vk/context.cpp lines 606-697) -/

/-- The `::vk::ImageLayout` values that `record_image_layout_change` inspects,
plus further members of the Vulkan enumeration to stand for "any other"
layout. -/
inductive image_layout
  | preinitialized
  | undefined
  | transfer_src
  | transfer_dst
  | depth_attachment
  | shader_read
  | general
  | color_attachment
  | present_src
deriving DecidableEq, Fintype

/-- The `::vk::AccessFlagBits` values used by `record_image_layout_change`. -/
inductive access_flag
  | host_write
  | transfer_read
  | transfer_write
  | depth_attachment_read
  | depth_attachment_write
  | shader_read_access
deriving DecidableEq

/-- `context::record_image_layout_change` (src/vk/context.cpp lines 606-697),
restricted to the selection of the source/destination access masks. The final
`else` branch of the source is `assert(false && "Unsupported image layout
from/to combination.")`, i.e. a fatal contract violation; it is embedded as
`none`, while each supported transition yields `some` of the access-mask pair
the source assigns. -/
def record_image_layout_change (lfrom lto : image_layout) :
    Option (List access_flag × List access_flag) :=
  if lfrom = .preinitialized ∧ lto = .transfer_src then
    some ([.host_write], [.transfer_read])
  else if lfrom = .preinitialized ∧ lto = .transfer_dst then
    some ([.host_write], [.transfer_write])
  else if lfrom = .undefined ∧ lto = .depth_attachment then
    some ([], [.depth_attachment_read, .depth_attachment_write])
  else if lfrom = .undefined ∧ lto = .shader_read then
    some ([], [.shader_read_access])
  else if lfrom = .depth_attachment ∧ lto = .shader_read then
    some ([.depth_attachment_read, .depth_attachment_write], [.shader_read_access])
  else if lfrom = .shader_read ∧ lto = .depth_attachment then
    some ([.shader_read_access], [.depth_attachment_read, .depth_attachment_write])
  else if lfrom = .transfer_dst ∧ lto = .shader_read then
    some ([.transfer_write], [.shader_read_access])
  else
    none

/-- The fixed enumerated set of supported layout transitions listed by the
specification. -/
def supported_transitions : List (image_layout × image_layout) :=
  [(.preinitialized, .transfer_src), (.preinitialized, .transfer_dst),
   (.undefined, .depth_attachment), (.undefined, .shader_read),
   (.depth_attachment, .shader_read), (.shader_read, .depth_attachment),
   (.transfer_dst, .shader_read)]

/-! # GPU memory allocation wrappers (vk/buffer.hpp, vk/buffer.cpp, vk/image.cpp)

Handles (`::vk::Buffer`, `::vk::Image`, `::vk::ImageView`, `::vk::DeviceMemory`,
`VmaAllocation`) are embedded as `Nat`, with `0` standing for
`VK_NULL_HANDLE` / `nullptr`. -/

/-- `mxn::vk::vma_buffer` (vk/buffer.hpp lines 23-51): a buffer handle, its
device memory handle and its VMA allocation. The defaulted constructor
value-initialises every handle to null. -/
structure vma_buffer where
  buffer : ℕ := 0
  memory : ℕ := 0
  allocation : ℕ := 0
deriving DecidableEq

/-- `mxn::vk::vma_image` (vk/image.hpp): an image handle, its view, its device
memory handle and its VMA allocation. -/
structure vma_image where
  image : ℕ := 0
  view : ℕ := 0
  memory : ℕ := 0
  allocation : ℕ := 0
deriving DecidableEq

/-- Events observable at the allocator/device when tearing a wrapper down. -/
inductive gpu_free_event
  | free_buffer (buffer allocation : ℕ)
  | free_image (image allocation : ℕ)
  | destroy_view (view : ℕ)
deriving DecidableEq

/-- Move construction of `mxn::vk::vma_buffer`. The struct declares no move
constructor or move assignment operator (vk/buffer.hpp lines 23-51 declare only
the defaulted default constructor and the allocating constructor), so the
implicitly-generated move is a memberwise move; every member is a trivially
copyable handle, so the moved-from source is left bitwise unchanged. The
result is `(new object, moved-from source)`. -/
def vma_buffer.move_construct (src : vma_buffer) : vma_buffer × vma_buffer :=
  (⟨src.buffer, src.memory, src.allocation⟩, src)

/-- `vma_buffer::destroy` (vk/buffer.cpp lines 119-122) calls
`vmaDestroyBuffer(ctxt.vma, buffer, allocation)`, which by the VMA contract is
a no-op when both the buffer and the allocation are null, and otherwise
destroys the buffer and frees the allocation. -/
def vma_buffer.destroy (b : vma_buffer) : List gpu_free_event :=
  if b.buffer = 0 ∧ b.allocation = 0 then [] else [.free_buffer b.buffer b.allocation]

/-- `vma_image::vma_image(vma_image&&)` (src/vk/image.cpp lines 151-161):
copies all four handles then resets every handle of the source to
`VK_NULL_HANDLE`. The result is `(new object, moved-from source)`. -/
def vma_image.move_construct (src : vma_image) : vma_image × vma_image :=
  (⟨src.image, src.view, src.memory, src.allocation⟩, ⟨0, 0, 0, 0⟩)

/-- `vma_image::operator=(vma_image&&)` (src/vk/image.cpp lines 163-174):
assigns all four handles of the source to the destination then resets every
handle of the source to `VK_NULL_HANDLE`. The result is
`(new destination value, moved-from source)`. -/
def vma_image.move_assign (_dst src : vma_image) : vma_image × vma_image :=
  (⟨src.image, src.view, src.memory, src.allocation⟩, ⟨0, 0, 0, 0⟩)

/-- `vma_image::destroy` (src/vk/image.cpp lines 176-180) calls
`vmaDestroyImage(ctxt.vma, image, allocation)` then
`device.destroyImageView(view)`; both are no-ops on null handles by the
VMA/Vulkan contracts. -/
def vma_image.destroy (i : vma_image) : List gpu_free_event :=
  (if i.image = 0 ∧ i.allocation = 0 then [] else [.free_image i.image i.allocation]) ++
    (if i.view = 0 then [] else [.destroy_view i.view])

/-! # Uniform data block upload (vk/ubo.ipp lines 84-93, vk/buffer.cpp 110-117) -/

/-- Host-visible effects of the uniform-data-block operations. -/
inductive ubo_event
  | map_memory (allocation : ℕ)
  | write_host_data_to (allocation : ℕ)
  | unmap_memory (allocation : ℕ)
  | onetime_copy (src_buffer dst_buffer : ℕ)
deriving DecidableEq

/-- `vma_buffer::copy_to` (vk/buffer.cpp lines 110-117): records a
`copyBuffer(buffer, other.buffer, regions)` on a one-time command buffer
obtained from `begin_onetime_buffer` and submitted synchronously by
`consume_onetime_buffer`. -/
def vma_buffer.copy_to (src dst : vma_buffer) : List ubo_event :=
  [.onetime_copy src.buffer dst.buffer]

/-- `mxn::vk::ubo<T, Sz>` (vk/ubo.hpp): a device-local holding buffer and a
host-visible staging buffer. The host-mirrored value `data` itself is not part
of the GPU state. -/
structure ubo where
  buffer : vma_buffer
  staging : vma_buffer
deriving DecidableEq

/-- `ubo<T, Sz>::update` (vk/ubo.ipp lines 84-93): maps the staging
allocation, `memcpy`s the host value `data` into it, unmaps it, then performs
`staging.copy_to(ctxt, buffer, …)`. (The `T_inner_ptr` overload at lines 73-82
differs only in how the host pointer is obtained.) -/
def ubo.update (u : ubo) : List ubo_event :=
  [.map_memory u.staging.allocation, .write_host_data_to u.staging.allocation,
   .unmap_memory u.staging.allocation] ++ u.staging.copy_to u.buffer

/-! # Per-frame submission chain (src/vk/context.cpp lines 406-506)

Semaphores are kept abstract (a type parameter), so nothing about their
identity is assumed beyond what the context fields provide. -/

/-- The `::vk::PipelineStageFlagBits` wait-stage values used per submission. -/
inductive pipeline_stage
  | color_attachment_output
  | fragment_shader
  | compute_shader
  | top_of_pipe
deriving DecidableEq

/-- One `::vk::SubmitInfo` as built by the four per-frame submission
functions: wait semaphores, wait stages, signalled semaphore, and whether
`fence_render` is passed to `submit` as the completion fence. -/
structure submission (σ : Type) where
  wait_semas : List σ
  wait_stages : List pipeline_stage
  signal_sema : σ
  signal_fence : Bool
deriving DecidableEq

/-- The per-frame semaphores of `mxn::vk::context`
(src/vk/context.hpp lines 177-178). -/
structure render_context (σ : Type) where
  sema_renderdone : σ
  sema_imgavail : σ
  sema_lightculldone : σ
  sema_prepassdone : σ
  sema_imgui : σ

/-- `context::submit_prepass` (src/vk/context.cpp lines 406-417): submits the
depth-prepass command buffer on the graphics queue with the given (asserted
empty) wait list and no wait stages, signalling and returning
`sema_prepassdone`; no fence. -/
def submit_prepass {σ : Type} (c : render_context σ) (wait_semas : List σ) :
    submission σ × σ :=
  (⟨wait_semas, [], c.sema_prepassdone, false⟩, c.sema_prepassdone)

/-- `context::compute_lightcull` (src/vk/context.cpp lines 419-434): submits
the pre-recorded light-cull command buffer on the compute queue, waiting on the
given semaphores at the compute-shader stage, signalling and returning
`sema_lightculldone`; no fence. -/
def compute_lightcull {σ : Type} (c : render_context σ) (wait_semas : List σ) :
    submission σ × σ :=
  (⟨wait_semas, [.compute_shader], c.sema_lightculldone, false⟩, c.sema_lightculldone)

/-- `context::submit_geometry` (src/vk/context.cpp lines 436-457): prepends
`sema_imgavail` to the given wait list, waits at the color-attachment-output
and fragment-shader stages, signals and returns `sema_renderdone`; no fence. -/
def submit_geometry {σ : Type} (c : render_context σ) (wait_semas : List σ) :
    submission σ × σ :=
  (⟨c.sema_imgavail :: wait_semas, [.color_attachment_output, .fragment_shader],
    c.sema_renderdone, false⟩, c.sema_renderdone)

/-- `context::render_imgui` (src/vk/context.cpp lines 459-486): records the
overlay pass, submits it waiting at top-of-pipe on the given semaphores, and —
uniquely among the four submissions — passes `fence_render` to `submit`;
signals and returns `sema_imgui`. -/
def render_imgui {σ : Type} (c : render_context σ) (wait_semas : List σ) :
    submission σ × σ :=
  (⟨wait_semas, [.top_of_pipe], c.sema_imgui, true⟩, c.sema_imgui)

/-- The per-frame submission sequence exactly as the render-thread loop drives
it (main translation unit, `render_thread` lambda):
`sema_depth = submit_prepass({})`, `sema_lc = compute_lightcull(sema_depth)`,
`sema_geom = submit_geometry(sema_lc)`, `sema_imgui = render_imgui(sema_geom)`,
`present_frame(sema_imgui)`. Returns the four submissions in order plus the
semaphore handed to `present_frame`. -/
def frame_submissions {σ : Type} (c : render_context σ) :
    List (submission σ) × σ :=
  let p := submit_prepass c []
  let lc := compute_lightcull c [p.2]
  let g := submit_geometry c [lc.2]
  let ig := render_imgui c [g.2]
  ([p.1, lc.1, g.1, ig.1], ig.2)

/-! # Frame state: start_render / present_frame (src/vk/context.cpp 297-316, 488-506) -/

/-- Result of `acquireNextImageKHR` as the source inspects it. -/
inductive acquire_result
  | success
  | suboptimal_khr
  | error_out_of_date
deriving DecidableEq

/-- Result of `presentKHR`: either a returned `::vk::Result` success code
(`eSuccess` or `eSuboptimalKHR`) or the thrown `::vk::OutOfDateKHRError`. -/
inductive present_outcome
  | ok_success
  | ok_suboptimal
  | err_out_of_date
deriving DecidableEq

/-- Blocking device operations performed by `start_render`, in program
order. -/
inductive render_event
  | wait_fence_render
  | reset_fence_render
  | acquire_next_image
deriving DecidableEq

/-- Dynamic per-frame state of `mxn::vk::context`
(src/vk/context.hpp lines 182-185: `size_t frame = 0; uint32_t img_idx = 0;`),
plus a generation counter standing for the identity of the current
swapchain-dependent object set. -/
structure render_state where
  frame : ℕ
  img_idx : ℕ
  swapchain_generation : ℕ
deriving DecidableEq

/-- `context::start_render` (src/vk/context.cpp lines 297-316): waits on
`fence_render`, resets it, acquires the next swapchain image (the acquired
index `idx` and the result code are environment inputs), stores the index in
`img_idx`, and returns `res_acq.result != eErrorOutOfDateKHR`. The returned
triple is (return value, new state, blocking operations in order). -/
def start_render (st : render_state) (res : acquire_result) (idx : ℕ) :
    Bool × render_state × List render_event :=
  ((if res = .error_out_of_date then false else true),
   { st with img_idx := idx },
   [.wait_fence_render, .reset_fence_render, .acquire_next_image])

/-- `context::present_frame` (src/vk/context.cpp lines 488-506): presents on
the present queue; `ret` starts `true`, is set `false` on `eSuboptimalKHR`,
and set `false` in the `catch (OutOfDateKHRError&)` handler; `frame++` runs on
every path before returning. -/
def present_frame (st : render_state) (res : present_outcome) :
    Bool × render_state :=
  let ret := true
  let ret := match res with
    | .ok_success => ret
    | .ok_suboptimal => false
    | .err_out_of_date => false
  (ret, { st with frame := st.frame + 1 })

/-- `context::rebuild_swapchain` (src/vk/context.cpp lines 508-515): waits
idle, destroys and recreates every swapchain-dependent object; it touches
neither `frame` nor `img_idx`. -/
def rebuild_swapchain (st : render_state) : render_state :=
  { st with swapchain_generation := st.swapchain_generation + 1 }

/-! # Marching cubes (src/vk/model.cpp lines 609-1034)

`glm::vec3` is embedded as a triple of exact scalars; the `float` cell values
and positions become `ℚ`, on which the claimed identities are exact. -/

/-- Exact embedding of `glm::vec3`: a component triple over a scalar type. -/
structure Vec3 (α : Type) where
  x : α
  y : α
  z : α
deriving DecidableEq

instance {α : Type} [Add α] : Add (Vec3 α) :=
  ⟨fun a b => ⟨a.x + b.x, a.y + b.y, a.z + b.z⟩⟩

instance {α : Type} [Sub α] : Sub (Vec3 α) :=
  ⟨fun a b => ⟨a.x - b.x, a.y - b.y, a.z - b.z⟩⟩

instance {α : Type} [Mul α] : SMul α (Vec3 α) :=
  ⟨fun t v => ⟨t * v.x, t * v.y, t * v.z⟩⟩

instance {α : Type} [Zero α] : Zero (Vec3 α) := ⟨⟨0, 0, 0⟩⟩

/-- `glm::cross`. -/
def cross {α : Type} [Ring α] (a b : Vec3 α) : Vec3 α :=
  ⟨a.y * b.z - a.z * b.y, a.z * b.x - a.x * b.z, a.x * b.y - a.y * b.x⟩

/-- `MARCHING_CUBES_EDGES` (src/vk/model.cpp lines 613-636): the 256-entry
edge-activity table; entry `ndx` has bit `k` set when edge `k` of the cell
carries a zero crossing. -/
def MARCHING_CUBES_EDGES : List ℕ :=
  [0x0, 0x109, 0x203, 0x30a, 0x406, 0x50f, 0x605, 0x70c,
   0x80c, 0x905, 0xa0f, 0xb06, 0xc0a, 0xd03, 0xe09, 0xf00,
   0x190, 0x99, 0x393, 0x29a, 0x596, 0x49f, 0x795, 0x69c,
   0x99c, 0x895, 0xb9f, 0xa96, 0xd9a, 0xc93, 0xf99, 0xe90,
   0x230, 0x339, 0x33, 0x13a, 0x636, 0x73f, 0x435, 0x53c,
   0xa3c, 0xb35, 0x83f, 0x936, 0xe3a, 0xf33, 0xc39, 0xd30,
   0x3a0, 0x2a9, 0x1a3, 0xaa, 0x7a6, 0x6af, 0x5a5, 0x4ac,
   0xbac, 0xaa5, 0x9af, 0x8a6, 0xfaa, 0xea3, 0xda9, 0xca0,
   0x460, 0x569, 0x663, 0x76a, 0x66, 0x16f, 0x265, 0x36c,
   0xc6c, 0xd65, 0xe6f, 0xf66, 0x86a, 0x963, 0xa69, 0xb60,
   0x5f0, 0x4f9, 0x7f3, 0x6fa, 0x1f6, 0xff, 0x3f5, 0x2fc,
   0xdfc, 0xcf5, 0xfff, 0xef6, 0x9fa, 0x8f3, 0xbf9, 0xaf0,
   0x650, 0x759, 0x453, 0x55a, 0x256, 0x35f, 0x55, 0x15c,
   0xe5c, 0xf55, 0xc5f, 0xd56, 0xa5a, 0xb53, 0x859, 0x950,
   0x7c0, 0x6c9, 0x5c3, 0x4ca, 0x3c6, 0x2cf, 0x1c5, 0xcc,
   0xfcc, 0xec5, 0xdcf, 0xcc6, 0xbca, 0xac3, 0x9c9, 0x8c0,
   0x8c0, 0x9c9, 0xac3, 0xbca, 0xcc6, 0xdcf, 0xec5, 0xfcc,
   0xcc, 0x1c5, 0x2cf, 0x3c6, 0x4ca, 0x5c3, 0x6c9, 0x7c0,
   0x950, 0x859, 0xb53, 0xa5a, 0xd56, 0xc5f, 0xf55, 0xe5c,
   0x15c, 0x55, 0x35f, 0x256, 0x55a, 0x453, 0x759, 0x650,
   0xaf0, 0xbf9, 0x8f3, 0x9fa, 0xef6, 0xfff, 0xcf5, 0xdfc,
   0x2fc, 0x3f5, 0xff, 0x1f6, 0x6fa, 0x7f3, 0x4f9, 0x5f0,
   0xb60, 0xa69, 0x963, 0x86a, 0xf66, 0xe6f, 0xd65, 0xc6c,
   0x36c, 0x265, 0x16f, 0x66, 0x76a, 0x663, 0x569, 0x460,
   0xca0, 0xda9, 0xea3, 0xfaa, 0x8a6, 0x9af, 0xaa5, 0xbac,
   0x4ac, 0x5a5, 0x6af, 0x7a6, 0xaa, 0x1a3, 0x2a9, 0x3a0,
   0xd30, 0xc39, 0xf33, 0xe3a, 0x936, 0x83f, 0xb35, 0xa3c,
   0x53c, 0x435, 0x73f, 0x636, 0x13a, 0x33, 0x339, 0x230,
   0xe90, 0xf99, 0xc93, 0xd9a, 0xa96, 0xb9f, 0x895, 0x99c,
   0x69c, 0x795, 0x49f, 0x596, 0x29a, 0x393, 0x99, 0x190,
   0xf00, 0xe09, 0xd03, 0xc0a, 0xb06, 0xa0f, 0x905, 0x80c,
   0x70c, 0x605, 0x50f, 0x406, 0x30a, 0x203, 0x109, 0x0]

/-- The `-1` sentinel filling the tail of each `MARCHING_CUBES_TRIS` row
(a `signed char` in the source). -/
def NO_TRI : ℤ := -1

/-- `MARCHING_CUBES_TRIS` (src/vk/model.cpp lines 638-895): the 256-row
triangle table; each row lists edge indices three at a time, terminated by
`-1` (here `NO_TRI`) entries. -/
def MARCHING_CUBES_TRIS : List (List ℤ) :=
  [[NO_TRI, NO_TRI, NO_TRI, NO_TRI, NO_TRI, NO_TRI, NO_TRI, NO_TRI, NO_TRI, NO_TRI, NO_TRI, NO_TRI, NO_TRI, NO_TRI, NO_TRI, NO_TRI],
   [0, 8, 3, NO_TRI, NO_TRI, NO_TRI, NO_TRI, NO_TRI, NO_TRI, NO_TRI, NO_TRI, NO_TRI, NO_TRI, NO_TRI, NO_TRI, NO_TRI],
   [0, 1, 9, NO_TRI, NO_TRI, NO_TRI, NO_TRI, NO_TRI, NO_TRI, NO_TRI, NO_TRI, NO_TRI, NO_TRI, NO_TRI, NO_TRI, NO_TRI],
   [1, 8, 3, 9, 8, 1, NO_TRI, NO_TRI, NO_TRI, NO_TRI, NO_TRI, NO_TRI, NO_TRI, NO_TRI, NO_TRI, NO_TRI],
   [1, 2, 10, NO_TRI, NO_TRI, NO_TRI, NO_TRI, NO_TRI, NO_TRI, NO_TRI, NO_TRI, NO_TRI, NO_TRI, NO_TRI, NO_TRI, NO_TRI],
   [0, 8, 3, 1, 2, 10, NO_TRI, NO_TRI, NO_TRI, NO_TRI, NO_TRI, NO_TRI, NO_TRI, NO_TRI, NO_TRI, NO_TRI],
   [9, 2, 10, 0, 2, 9, NO_TRI, NO_TRI, NO_TRI, NO_TRI, NO_TRI, NO_TRI, NO_TRI, NO_TRI, NO_TRI, NO_TRI],
   [2, 8, 3, 2, 10, 8, 10, 9, 8, NO_TRI, NO_TRI, NO_TRI, NO_TRI, NO_TRI, NO_TRI, NO_TRI],
   [3, 11, 2, NO_TRI, NO_TRI, NO_TRI, NO_TRI, NO_TRI, NO_TRI, NO_TRI, NO_TRI, NO_TRI, NO_TRI, NO_TRI, NO_TRI, NO_TRI],
   [0, 11, 2, 8, 11, 0, NO_TRI, NO_TRI, NO_TRI, NO_TRI, NO_TRI, NO_TRI, NO_TRI, NO_TRI, NO_TRI, NO_TRI],
   [1, 9, 0, 2, 3, 11, NO_TRI, NO_TRI, NO_TRI, NO_TRI, NO_TRI, NO_TRI, NO_TRI, NO_TRI, NO_TRI, NO_TRI],
   [1, 11, 2, 1, 9, 11, 9, 8, 11, NO_TRI, NO_TRI, NO_TRI, NO_TRI, NO_TRI, NO_TRI, NO_TRI],
   [3, 10, 1, 11, 10, 3, NO_TRI, NO_TRI, NO_TRI, NO_TRI, NO_TRI, NO_TRI, NO_TRI, NO_TRI, NO_TRI, NO_TRI],
   [0, 10, 1, 0, 8, 10, 8, 11, 10, NO_TRI, NO_TRI, NO_TRI, NO_TRI, NO_TRI, NO_TRI, NO_TRI],
   [3, 9, 0, 3, 11, 9, 11, 10, 9, NO_TRI, NO_TRI, NO_TRI, NO_TRI, NO_TRI, NO_TRI, NO_TRI],
   [9, 8, 10, 10, 8, 11, NO_TRI, NO_TRI, NO_TRI, NO_TRI, NO_TRI, NO_TRI, NO_TRI, NO_TRI, NO_TRI, NO_TRI],
   [4, 7, 8, NO_TRI, NO_TRI, NO_TRI, NO_TRI, NO_TRI, NO_TRI, NO_TRI, NO_TRI, NO_TRI, NO_TRI, NO_TRI, NO_TRI, NO_TRI],
   [4, 3, 0, 7, 3, 4, NO_TRI, NO_TRI, NO_TRI, NO_TRI, NO_TRI, NO_TRI, NO_TRI, NO_TRI, NO_TRI, NO_TRI],
   [0, 1, 9, 8, 4, 7, NO_TRI, NO_TRI, NO_TRI, NO_TRI, NO_TRI, NO_TRI, NO_TRI, NO_TRI, NO_TRI, NO_TRI],
   [4, 1, 9, 4, 7, 1, 7, 3, 1, NO_TRI, NO_TRI, NO_TRI, NO_TRI, NO_TRI, NO_TRI, NO_TRI],
   [1, 2, 10, 8, 4, 7, NO_TRI, NO_TRI, NO_TRI, NO_TRI, NO_TRI, NO_TRI, NO_TRI, NO_TRI, NO_TRI, NO_TRI],
   [3, 4, 7, 3, 0, 4, 1, 2, 10, NO_TRI, NO_TRI, NO_TRI, NO_TRI, NO_TRI, NO_TRI, NO_TRI],
   [9, 2, 10, 9, 0, 2, 8, 4, 7, NO_TRI, NO_TRI, NO_TRI, NO_TRI, NO_TRI, NO_TRI, NO_TRI],
   [2, 10, 9, 2, 9, 7, 2, 7, 3, 7, 9, 4, NO_TRI, NO_TRI, NO_TRI, NO_TRI],
   [8, 4, 7, 3, 11, 2, NO_TRI, NO_TRI, NO_TRI, NO_TRI, NO_TRI, NO_TRI, NO_TRI, NO_TRI, NO_TRI, NO_TRI],
   [11, 4, 7, 11, 2, 4, 2, 0, 4, NO_TRI, NO_TRI, NO_TRI, NO_TRI, NO_TRI, NO_TRI, NO_TRI],
   [9, 0, 1, 8, 4, 7, 2, 3, 11, NO_TRI, NO_TRI, NO_TRI, NO_TRI, NO_TRI, NO_TRI, NO_TRI],
   [4, 7, 11, 9, 4, 11, 9, 11, 2, 9, 2, 1, NO_TRI, NO_TRI, NO_TRI, NO_TRI],
   [3, 10, 1, 3, 11, 10, 7, 8, 4, NO_TRI, NO_TRI, NO_TRI, NO_TRI, NO_TRI, NO_TRI, NO_TRI],
   [1, 11, 10, 1, 4, 11, 1, 0, 4, 7, 11, 4, NO_TRI, NO_TRI, NO_TRI, NO_TRI],
   [4, 7, 8, 9, 0, 11, 9, 11, 10, 11, 0, 3, NO_TRI, NO_TRI, NO_TRI, NO_TRI],
   [4, 7, 11, 4, 11, 9, 9, 11, 10, NO_TRI, NO_TRI, NO_TRI, NO_TRI, NO_TRI, NO_TRI, NO_TRI],
   [9, 5, 4, NO_TRI, NO_TRI, NO_TRI, NO_TRI, NO_TRI, NO_TRI, NO_TRI, NO_TRI, NO_TRI, NO_TRI, NO_TRI, NO_TRI, NO_TRI],
   [9, 5, 4, 0, 8, 3, NO_TRI, NO_TRI, NO_TRI, NO_TRI, NO_TRI, NO_TRI, NO_TRI, NO_TRI, NO_TRI, NO_TRI],
   [0, 5, 4, 1, 5, 0, NO_TRI, NO_TRI, NO_TRI, NO_TRI, NO_TRI, NO_TRI, NO_TRI, NO_TRI, NO_TRI, NO_TRI],
   [8, 5, 4, 8, 3, 5, 3, 1, 5, NO_TRI, NO_TRI, NO_TRI, NO_TRI, NO_TRI, NO_TRI, NO_TRI],
   [1, 2, 10, 9, 5, 4, NO_TRI, NO_TRI, NO_TRI, NO_TRI, NO_TRI, NO_TRI, NO_TRI, NO_TRI, NO_TRI, NO_TRI],
   [3, 0, 8, 1, 2, 10, 4, 9, 5, NO_TRI, NO_TRI, NO_TRI, NO_TRI, NO_TRI, NO_TRI, NO_TRI],
   [5, 2, 10, 5, 4, 2, 4, 0, 2, NO_TRI, NO_TRI, NO_TRI, NO_TRI, NO_TRI, NO_TRI, NO_TRI],
   [2, 10, 5, 3, 2, 5, 3, 5, 4, 3, 4, 8, NO_TRI, NO_TRI, NO_TRI, NO_TRI],
   [9, 5, 4, 2, 3, 11, NO_TRI, NO_TRI, NO_TRI, NO_TRI, NO_TRI, NO_TRI, NO_TRI, NO_TRI, NO_TRI, NO_TRI],
   [0, 11, 2, 0, 8, 11, 4, 9, 5, NO_TRI, NO_TRI, NO_TRI, NO_TRI, NO_TRI, NO_TRI, NO_TRI],
   [0, 5, 4, 0, 1, 5, 2, 3, 11, NO_TRI, NO_TRI, NO_TRI, NO_TRI, NO_TRI, NO_TRI, NO_TRI],
   [2, 1, 5, 2, 5, 8, 2, 8, 11, 4, 8, 5, NO_TRI, NO_TRI, NO_TRI, NO_TRI],
   [10, 3, 11, 10, 1, 3, 9, 5, 4, NO_TRI, NO_TRI, NO_TRI, NO_TRI, NO_TRI, NO_TRI, NO_TRI],
   [4, 9, 5, 0, 8, 1, 8, 10, 1, 8, 11, 10, NO_TRI, NO_TRI, NO_TRI, NO_TRI],
   [5, 4, 0, 5, 0, 11, 5, 11, 10, 11, 0, 3, NO_TRI, NO_TRI, NO_TRI, NO_TRI],
   [5, 4, 8, 5, 8, 10, 10, 8, 11, NO_TRI, NO_TRI, NO_TRI, NO_TRI, NO_TRI, NO_TRI, NO_TRI],
   [9, 7, 8, 5, 7, 9, NO_TRI, NO_TRI, NO_TRI, NO_TRI, NO_TRI, NO_TRI, NO_TRI, NO_TRI, NO_TRI, NO_TRI],
   [9, 3, 0, 9, 5, 3, 5, 7, 3, NO_TRI, NO_TRI, NO_TRI, NO_TRI, NO_TRI, NO_TRI, NO_TRI],
   [0, 7, 8, 0, 1, 7, 1, 5, 7, NO_TRI, NO_TRI, NO_TRI, NO_TRI, NO_TRI, NO_TRI, NO_TRI],
   [1, 5, 3, 3, 5, 7, NO_TRI, NO_TRI, NO_TRI, NO_TRI, NO_TRI, NO_TRI, NO_TRI, NO_TRI, NO_TRI, NO_TRI],
   [9, 7, 8, 9, 5, 7, 10, 1, 2, NO_TRI, NO_TRI, NO_TRI, NO_TRI, NO_TRI, NO_TRI, NO_TRI],
   [10, 1, 2, 9, 5, 0, 5, 3, 0, 5, 7, 3, NO_TRI, NO_TRI, NO_TRI, NO_TRI],
   [8, 0, 2, 8, 2, 5, 8, 5, 7, 10, 5, 2, NO_TRI, NO_TRI, NO_TRI, NO_TRI],
   [2, 10, 5, 2, 5, 3, 3, 5, 7, NO_TRI, NO_TRI, NO_TRI, NO_TRI, NO_TRI, NO_TRI, NO_TRI],
   [7, 9, 5, 7, 8, 9, 3, 11, 2, NO_TRI, NO_TRI, NO_TRI, NO_TRI, NO_TRI, NO_TRI, NO_TRI],
   [9, 5, 7, 9, 7, 2, 9, 2, 0, 2, 7, 11, NO_TRI, NO_TRI, NO_TRI, NO_TRI],
   [2, 3, 11, 0, 1, 8, 1, 7, 8, 1, 5, 7, NO_TRI, NO_TRI, NO_TRI, NO_TRI],
   [11, 2, 1, 11, 1, 7, 7, 1, 5, NO_TRI, NO_TRI, NO_TRI, NO_TRI, NO_TRI, NO_TRI, NO_TRI],
   [9, 5, 8, 8, 5, 7, 10, 1, 3, 10, 3, 11, NO_TRI, NO_TRI, NO_TRI, NO_TRI],
   [5, 7, 0, 5, 0, 9, 7, 11, 0, 1, 0, 10, 11, 10, 0, NO_TRI],
   [11, 10, 0, 11, 0, 3, 10, 5, 0, 8, 0, 7, 5, 7, 0, NO_TRI],
   [11, 10, 5, 7, 11, 5, NO_TRI, NO_TRI, NO_TRI, NO_TRI, NO_TRI, NO_TRI, NO_TRI, NO_TRI, NO_TRI, NO_TRI],
   [10, 6, 5, NO_TRI, NO_TRI, NO_TRI, NO_TRI, NO_TRI, NO_TRI, NO_TRI, NO_TRI, NO_TRI, NO_TRI, NO_TRI, NO_TRI, NO_TRI],
   [0, 8, 3, 5, 10, 6, NO_TRI, NO_TRI, NO_TRI, NO_TRI, NO_TRI, NO_TRI, NO_TRI, NO_TRI, NO_TRI, NO_TRI],
   [9, 0, 1, 5, 10, 6, NO_TRI, NO_TRI, NO_TRI, NO_TRI, NO_TRI, NO_TRI, NO_TRI, NO_TRI, NO_TRI, NO_TRI],
   [1, 8, 3, 1, 9, 8, 5, 10, 6, NO_TRI, NO_TRI, NO_TRI, NO_TRI, NO_TRI, NO_TRI, NO_TRI],
   [1, 6, 5, 2, 6, 1, NO_TRI, NO_TRI, NO_TRI, NO_TRI, NO_TRI, NO_TRI, NO_TRI, NO_TRI, NO_TRI, NO_TRI],
   [1, 6, 5, 1, 2, 6, 3, 0, 8, NO_TRI, NO_TRI, NO_TRI, NO_TRI, NO_TRI, NO_TRI, NO_TRI],
   [9, 6, 5, 9, 0, 6, 0, 2, 6, NO_TRI, NO_TRI, NO_TRI, NO_TRI, NO_TRI, NO_TRI, NO_TRI],
   [5, 9, 8, 5, 8, 2, 5, 2, 6, 3, 2, 8, NO_TRI, NO_TRI, NO_TRI, NO_TRI],
   [2, 3, 11, 10, 6, 5, NO_TRI, NO_TRI, NO_TRI, NO_TRI, NO_TRI, NO_TRI, NO_TRI, NO_TRI, NO_TRI, NO_TRI],
   [11, 0, 8, 11, 2, 0, 10, 6, 5, NO_TRI, NO_TRI, NO_TRI, NO_TRI, NO_TRI, NO_TRI, NO_TRI],
   [0, 1, 9, 2, 3, 11, 5, 10, 6, NO_TRI, NO_TRI, NO_TRI, NO_TRI, NO_TRI, NO_TRI, NO_TRI],
   [5, 10, 6, 1, 9, 2, 9, 11, 2, 9, 8, 11, NO_TRI, NO_TRI, NO_TRI, NO_TRI],
   [6, 3, 11, 6, 5, 3, 5, 1, 3, NO_TRI, NO_TRI, NO_TRI, NO_TRI, NO_TRI, NO_TRI, NO_TRI],
   [0, 8, 11, 0, 11, 5, 0, 5, 1, 5, 11, 6, NO_TRI, NO_TRI, NO_TRI, NO_TRI],
   [3, 11, 6, 0, 3, 6, 0, 6, 5, 0, 5, 9, NO_TRI, NO_TRI, NO_TRI, NO_TRI],
   [6, 5, 9, 6, 9, 11, 11, 9, 8, NO_TRI, NO_TRI, NO_TRI, NO_TRI, NO_TRI, NO_TRI, NO_TRI],
   [5, 10, 6, 4, 7, 8, NO_TRI, NO_TRI, NO_TRI, NO_TRI, NO_TRI, NO_TRI, NO_TRI, NO_TRI, NO_TRI, NO_TRI],
   [4, 3, 0, 4, 7, 3, 6, 5, 10, NO_TRI, NO_TRI, NO_TRI, NO_TRI, NO_TRI, NO_TRI, NO_TRI],
   [1, 9, 0, 5, 10, 6, 8, 4, 7, NO_TRI, NO_TRI, NO_TRI, NO_TRI, NO_TRI, NO_TRI, NO_TRI],
   [10, 6, 5, 1, 9, 7, 1, 7, 3, 7, 9, 4, NO_TRI, NO_TRI, NO_TRI, NO_TRI],
   [6, 1, 2, 6, 5, 1, 4, 7, 8, NO_TRI, NO_TRI, NO_TRI, NO_TRI, NO_TRI, NO_TRI, NO_TRI],
   [1, 2, 5, 5, 2, 6, 3, 0, 4, 3, 4, 7, NO_TRI, NO_TRI, NO_TRI, NO_TRI],
   [8, 4, 7, 9, 0, 5, 0, 6, 5, 0, 2, 6, NO_TRI, NO_TRI, NO_TRI, NO_TRI],
   [7, 3, 9, 7, 9, 4, 3, 2, 9, 5, 9, 6, 2, 6, 9, NO_TRI],
   [3, 11, 2, 7, 8, 4, 10, 6, 5, NO_TRI, NO_TRI, NO_TRI, NO_TRI, NO_TRI, NO_TRI, NO_TRI],
   [5, 10, 6, 4, 7, 2, 4, 2, 0, 2, 7, 11, NO_TRI, NO_TRI, NO_TRI, NO_TRI],
   [0, 1, 9, 4, 7, 8, 2, 3, 11, 5, 10, 6, NO_TRI, NO_TRI, NO_TRI, NO_TRI],
   [9, 2, 1, 9, 11, 2, 9, 4, 11, 7, 11, 4, 5, 10, 6, NO_TRI],
   [8, 4, 7, 3, 11, 5, 3, 5, 1, 5, 11, 6, NO_TRI, NO_TRI, NO_TRI, NO_TRI],
   [5, 1, 11, 5, 11, 6, 1, 0, 11, 7, 11, 4, 0, 4, 11, NO_TRI],
   [0, 5, 9, 0, 6, 5, 0, 3, 6, 11, 6, 3, 8, 4, 7, NO_TRI],
   [6, 5, 9, 6, 9, 11, 4, 7, 9, 7, 11, 9, NO_TRI, NO_TRI, NO_TRI, NO_TRI],
   [10, 4, 9, 6, 4, 10, NO_TRI, NO_TRI, NO_TRI, NO_TRI, NO_TRI, NO_TRI, NO_TRI, NO_TRI, NO_TRI, NO_TRI],
   [4, 10, 6, 4, 9, 10, 0, 8, 3, NO_TRI, NO_TRI, NO_TRI, NO_TRI, NO_TRI, NO_TRI, NO_TRI],
   [10, 0, 1, 10, 6, 0, 6, 4, 0, NO_TRI, NO_TRI, NO_TRI, NO_TRI, NO_TRI, NO_TRI, NO_TRI],
   [8, 3, 1, 8, 1, 6, 8, 6, 4, 6, 1, 10, NO_TRI, NO_TRI, NO_TRI, NO_TRI],
   [1, 4, 9, 1, 2, 4, 2, 6, 4, NO_TRI, NO_TRI, NO_TRI, NO_TRI, NO_TRI, NO_TRI, NO_TRI],
   [3, 0, 8, 1, 2, 9, 2, 4, 9, 2, 6, 4, NO_TRI, NO_TRI, NO_TRI, NO_TRI],
   [0, 2, 4, 4, 2, 6, NO_TRI, NO_TRI, NO_TRI, NO_TRI, NO_TRI, NO_TRI, NO_TRI, NO_TRI, NO_TRI, NO_TRI],
   [8, 3, 2, 8, 2, 4, 4, 2, 6, NO_TRI, NO_TRI, NO_TRI, NO_TRI, NO_TRI, NO_TRI, NO_TRI],
   [10, 4, 9, 10, 6, 4, 11, 2, 3, NO_TRI, NO_TRI, NO_TRI, NO_TRI, NO_TRI, NO_TRI, NO_TRI],
   [0, 8, 2, 2, 8, 11, 4, 9, 10, 4, 10, 6, NO_TRI, NO_TRI, NO_TRI, NO_TRI],
   [3, 11, 2, 0, 1, 6, 0, 6, 4, 6, 1, 10, NO_TRI, NO_TRI, NO_TRI, NO_TRI],
   [6, 4, 1, 6, 1, 10, 4, 8, 1, 2, 1, 11, 8, 11, 1, NO_TRI],
   [9, 6, 4, 9, 3, 6, 9, 1, 3, 11, 6, 3, NO_TRI, NO_TRI, NO_TRI, NO_TRI],
   [8, 11, 1, 8, 1, 0, 11, 6, 1, 9, 1, 4, 6, 4, 1, NO_TRI],
   [3, 11, 6, 3, 6, 0, 0, 6, 4, NO_TRI, NO_TRI, NO_TRI, NO_TRI, NO_TRI, NO_TRI, NO_TRI],
   [6, 4, 8, 11, 6, 8, NO_TRI, NO_TRI, NO_TRI, NO_TRI, NO_TRI, NO_TRI, NO_TRI, NO_TRI, NO_TRI, NO_TRI],
   [7, 10, 6, 7, 8, 10, 8, 9, 10, NO_TRI, NO_TRI, NO_TRI, NO_TRI, NO_TRI, NO_TRI, NO_TRI],
   [0, 7, 3, 0, 10, 7, 0, 9, 10, 6, 7, 10, NO_TRI, NO_TRI, NO_TRI, NO_TRI],
   [10, 6, 7, 1, 10, 7, 1, 7, 8, 1, 8, 0, NO_TRI, NO_TRI, NO_TRI, NO_TRI],
   [10, 6, 7, 10, 7, 1, 1, 7, 3, NO_TRI, NO_TRI, NO_TRI, NO_TRI, NO_TRI, NO_TRI, NO_TRI],
   [1, 2, 6, 1, 6, 8, 1, 8, 9, 8, 6, 7, NO_TRI, NO_TRI, NO_TRI, NO_TRI],
   [2, 6, 9, 2, 9, 1, 6, 7, 9, 0, 9, 3, 7, 3, 9, NO_TRI],
   [7, 8, 0, 7, 0, 6, 6, 0, 2, NO_TRI, NO_TRI, NO_TRI, NO_TRI, NO_TRI, NO_TRI, NO_TRI],
   [7, 3, 2, 6, 7, 2, NO_TRI, NO_TRI, NO_TRI, NO_TRI, NO_TRI, NO_TRI, NO_TRI, NO_TRI, NO_TRI, NO_TRI],
   [2, 3, 11, 10, 6, 8, 10, 8, 9, 8, 6, 7, NO_TRI, NO_TRI, NO_TRI, NO_TRI],
   [2, 0, 7, 2, 7, 11, 0, 9, 7, 6, 7, 10, 9, 10, 7, NO_TRI],
   [1, 8, 0, 1, 7, 8, 1, 10, 7, 6, 7, 10, 2, 3, 11, NO_TRI],
   [11, 2, 1, 11, 1, 7, 10, 6, 1, 6, 7, 1, NO_TRI, NO_TRI, NO_TRI, NO_TRI],
   [8, 9, 6, 8, 6, 7, 9, 1, 6, 11, 6, 3, 1, 3, 6, NO_TRI],
   [0, 9, 1, 11, 6, 7, NO_TRI, NO_TRI, NO_TRI, NO_TRI, NO_TRI, NO_TRI, NO_TRI, NO_TRI, NO_TRI, NO_TRI],
   [7, 8, 0, 7, 0, 6, 3, 11, 0, 11, 6, 0, NO_TRI, NO_TRI, NO_TRI, NO_TRI],
   [7, 11, 6, NO_TRI, NO_TRI, NO_TRI, NO_TRI, NO_TRI, NO_TRI, NO_TRI, NO_TRI, NO_TRI, NO_TRI, NO_TRI, NO_TRI, NO_TRI],
   [7, 6, 11, NO_TRI, NO_TRI, NO_TRI, NO_TRI, NO_TRI, NO_TRI, NO_TRI, NO_TRI, NO_TRI, NO_TRI, NO_TRI, NO_TRI, NO_TRI],
   [3, 0, 8, 11, 7, 6, NO_TRI, NO_TRI, NO_TRI, NO_TRI, NO_TRI, NO_TRI, NO_TRI, NO_TRI, NO_TRI, NO_TRI],
   [0, 1, 9, 11, 7, 6, NO_TRI, NO_TRI, NO_TRI, NO_TRI, NO_TRI, NO_TRI, NO_TRI, NO_TRI, NO_TRI, NO_TRI],
   [8, 1, 9, 8, 3, 1, 11, 7, 6, NO_TRI, NO_TRI, NO_TRI, NO_TRI, NO_TRI, NO_TRI, NO_TRI],
   [10, 1, 2, 6, 11, 7, NO_TRI, NO_TRI, NO_TRI, NO_TRI, NO_TRI, NO_TRI, NO_TRI, NO_TRI, NO_TRI, NO_TRI],
   [1, 2, 10, 3, 0, 8, 6, 11, 7, NO_TRI, NO_TRI, NO_TRI, NO_TRI, NO_TRI, NO_TRI, NO_TRI],
   [2, 9, 0, 2, 10, 9, 6, 11, 7, NO_TRI, NO_TRI, NO_TRI, NO_TRI, NO_TRI, NO_TRI, NO_TRI],
   [6, 11, 7, 2, 10, 3, 10, 8, 3, 10, 9, 8, NO_TRI, NO_TRI, NO_TRI, NO_TRI],
   [7, 2, 3, 6, 2, 7, NO_TRI, NO_TRI, NO_TRI, NO_TRI, NO_TRI, NO_TRI, NO_TRI, NO_TRI, NO_TRI, NO_TRI],
   [7, 0, 8, 7, 6, 0, 6, 2, 0, NO_TRI, NO_TRI, NO_TRI, NO_TRI, NO_TRI, NO_TRI, NO_TRI],
   [2, 7, 6, 2, 3, 7, 0, 1, 9, NO_TRI, NO_TRI, NO_TRI, NO_TRI, NO_TRI, NO_TRI, NO_TRI],
   [1, 6, 2, 1, 8, 6, 1, 9, 8, 8, 7, 6, NO_TRI, NO_TRI, NO_TRI, NO_TRI],
   [10, 7, 6, 10, 1, 7, 1, 3, 7, NO_TRI, NO_TRI, NO_TRI, NO_TRI, NO_TRI, NO_TRI, NO_TRI],
   [10, 7, 6, 1, 7, 10, 1, 8, 7, 1, 0, 8, NO_TRI, NO_TRI, NO_TRI, NO_TRI],
   [0, 3, 7, 0, 7, 10, 0, 10, 9, 6, 10, 7, NO_TRI, NO_TRI, NO_TRI, NO_TRI],
   [7, 6, 10, 7, 10, 8, 8, 10, 9, NO_TRI, NO_TRI, NO_TRI, NO_TRI, NO_TRI, NO_TRI, NO_TRI],
   [6, 8, 4, 11, 8, 6, NO_TRI, NO_TRI, NO_TRI, NO_TRI, NO_TRI, NO_TRI, NO_TRI, NO_TRI, NO_TRI, NO_TRI],
   [3, 6, 11, 3, 0, 6, 0, 4, 6, NO_TRI, NO_TRI, NO_TRI, NO_TRI, NO_TRI, NO_TRI, NO_TRI],
   [8, 6, 11, 8, 4, 6, 9, 0, 1, NO_TRI, NO_TRI, NO_TRI, NO_TRI, NO_TRI, NO_TRI, NO_TRI],
   [9, 4, 6, 9, 6, 3, 9, 3, 1, 11, 3, 6, NO_TRI, NO_TRI, NO_TRI, NO_TRI],
   [6, 8, 4, 6, 11, 8, 2, 10, 1, NO_TRI, NO_TRI, NO_TRI, NO_TRI, NO_TRI, NO_TRI, NO_TRI],
   [1, 2, 10, 3, 0, 11, 0, 6, 11, 0, 4, 6, NO_TRI, NO_TRI, NO_TRI, NO_TRI],
   [4, 11, 8, 4, 6, 11, 0, 2, 9, 2, 10, 9, NO_TRI, NO_TRI, NO_TRI, NO_TRI],
   [10, 9, 3, 10, 3, 2, 9, 4, 3, 11, 3, 6, 4, 6, 3, NO_TRI],
   [8, 2, 3, 8, 4, 2, 4, 6, 2, NO_TRI, NO_TRI, NO_TRI, NO_TRI, NO_TRI, NO_TRI, NO_TRI],
   [0, 4, 2, 4, 6, 2, NO_TRI, NO_TRI, NO_TRI, NO_TRI, NO_TRI, NO_TRI, NO_TRI, NO_TRI, NO_TRI, NO_TRI],
   [1, 9, 0, 2, 3, 4, 2, 4, 6, 4, 3, 8, NO_TRI, NO_TRI, NO_TRI, NO_TRI],
   [1, 9, 4, 1, 4, 2, 2, 4, 6, NO_TRI, NO_TRI, NO_TRI, NO_TRI, NO_TRI, NO_TRI, NO_TRI],
   [8, 1, 3, 8, 6, 1, 8, 4, 6, 6, 10, 1, NO_TRI, NO_TRI, NO_TRI, NO_TRI],
   [10, 1, 0, 10, 0, 6, 6, 0, 4, NO_TRI, NO_TRI, NO_TRI, NO_TRI, NO_TRI, NO_TRI, NO_TRI],
   [4, 6, 3, 4, 3, 8, 6, 10, 3, 0, 3, 9, 10, 9, 3, NO_TRI],
   [10, 9, 4, 6, 10, 4, NO_TRI, NO_TRI, NO_TRI, NO_TRI, NO_TRI, NO_TRI, NO_TRI, NO_TRI, NO_TRI, NO_TRI],
   [4, 9, 5, 7, 6, 11, NO_TRI, NO_TRI, NO_TRI, NO_TRI, NO_TRI, NO_TRI, NO_TRI, NO_TRI, NO_TRI, NO_TRI],
   [0, 8, 3, 4, 9, 5, 11, 7, 6, NO_TRI, NO_TRI, NO_TRI, NO_TRI, NO_TRI, NO_TRI, NO_TRI],
   [5, 0, 1, 5, 4, 0, 7, 6, 11, NO_TRI, NO_TRI, NO_TRI, NO_TRI, NO_TRI, NO_TRI, NO_TRI],
   [11, 7, 6, 8, 3, 4, 3, 5, 4, 3, 1, 5, NO_TRI, NO_TRI, NO_TRI, NO_TRI],
   [9, 5, 4, 10, 1, 2, 7, 6, 11, NO_TRI, NO_TRI, NO_TRI, NO_TRI, NO_TRI, NO_TRI, NO_TRI],
   [6, 11, 7, 1, 2, 10, 0, 8, 3, 4, 9, 5, NO_TRI, NO_TRI, NO_TRI, NO_TRI],
   [7, 6, 11, 5, 4, 10, 4, 2, 10, 4, 0, 2, NO_TRI, NO_TRI, NO_TRI, NO_TRI],
   [3, 4, 8, 3, 5, 4, 3, 2, 5, 10, 5, 2, 11, 7, 6, NO_TRI],
   [7, 2, 3, 7, 6, 2, 5, 4, 9, NO_TRI, NO_TRI, NO_TRI, NO_TRI, NO_TRI, NO_TRI, NO_TRI],
   [9, 5, 4, 0, 8, 6, 0, 6, 2, 6, 8, 7, NO_TRI, NO_TRI, NO_TRI, NO_TRI],
   [3, 6, 2, 3, 7, 6, 1, 5, 0, 5, 4, 0, NO_TRI, NO_TRI, NO_TRI, NO_TRI],
   [6, 2, 8, 6, 8, 7, 2, 1, 8, 4, 8, 5, 1, 5, 8, NO_TRI],
   [9, 5, 4, 10, 1, 6, 1, 7, 6, 1, 3, 7, NO_TRI, NO_TRI, NO_TRI, NO_TRI],
   [1, 6, 10, 1, 7, 6, 1, 0, 7, 8, 7, 0, 9, 5, 4, NO_TRI],
   [4, 0, 10, 4, 10, 5, 0, 3, 10, 6, 10, 7, 3, 7, 10, NO_TRI],
   [7, 6, 10, 7, 10, 8, 5, 4, 10, 4, 8, 10, NO_TRI, NO_TRI, NO_TRI, NO_TRI],
   [6, 9, 5, 6, 11, 9, 11, 8, 9, NO_TRI, NO_TRI, NO_TRI, NO_TRI, NO_TRI, NO_TRI, NO_TRI],
   [3, 6, 11, 0, 6, 3, 0, 5, 6, 0, 9, 5, NO_TRI, NO_TRI, NO_TRI, NO_TRI],
   [0, 11, 8, 0, 5, 11, 0, 1, 5, 5, 6, 11, NO_TRI, NO_TRI, NO_TRI, NO_TRI],
   [6, 11, 3, 6, 3, 5, 5, 3, 1, NO_TRI, NO_TRI, NO_TRI, NO_TRI, NO_TRI, NO_TRI, NO_TRI],
   [1, 2, 10, 9, 5, 11, 9, 11, 8, 11, 5, 6, NO_TRI, NO_TRI, NO_TRI, NO_TRI],
   [0, 11, 3, 0, 6, 11, 0, 9, 6, 5, 6, 9, 1, 2, 10, NO_TRI],
   [11, 8, 5, 11, 5, 6, 8, 0, 5, 10, 5, 2, 0, 2, 5, NO_TRI],
   [6, 11, 3, 6, 3, 5, 2, 10, 3, 10, 5, 3, NO_TRI, NO_TRI, NO_TRI, NO_TRI],
   [5, 8, 9, 5, 2, 8, 5, 6, 2, 3, 8, 2, NO_TRI, NO_TRI, NO_TRI, NO_TRI],
   [9, 5, 6, 9, 6, 0, 0, 6, 2, NO_TRI, NO_TRI, NO_TRI, NO_TRI, NO_TRI, NO_TRI, NO_TRI],
   [1, 5, 8, 1, 8, 0, 5, 6, 8, 3, 8, 2, 6, 2, 8, NO_TRI],
   [1, 5, 6, 2, 1, 6, NO_TRI, NO_TRI, NO_TRI, NO_TRI, NO_TRI, NO_TRI, NO_TRI, NO_TRI, NO_TRI, NO_TRI],
   [1, 3, 6, 1, 6, 10, 3, 8, 6, 5, 6, 9, 8, 9, 6, NO_TRI],
   [10, 1, 0, 10, 0, 6, 9, 5, 0, 5, 6, 0, NO_TRI, NO_TRI, NO_TRI, NO_TRI],
   [0, 3, 8, 5, 6, 10, NO_TRI, NO_TRI, NO_TRI, NO_TRI, NO_TRI, NO_TRI, NO_TRI, NO_TRI, NO_TRI, NO_TRI],
   [10, 5, 6, NO_TRI, NO_TRI, NO_TRI, NO_TRI, NO_TRI, NO_TRI, NO_TRI, NO_TRI, NO_TRI, NO_TRI, NO_TRI, NO_TRI, NO_TRI],
   [11, 5, 10, 7, 5, 11, NO_TRI, NO_TRI, NO_TRI, NO_TRI, NO_TRI, NO_TRI, NO_TRI, NO_TRI, NO_TRI, NO_TRI],
   [11, 5, 10, 11, 7, 5, 8, 3, 0, NO_TRI, NO_TRI, NO_TRI, NO_TRI, NO_TRI, NO_TRI, NO_TRI],
   [5, 11, 7, 5, 10, 11, 1, 9, 0, NO_TRI, NO_TRI, NO_TRI, NO_TRI, NO_TRI, NO_TRI, NO_TRI],
   [10, 7, 5, 10, 11, 7, 9, 8, 1, 8, 3, 1, NO_TRI, NO_TRI, NO_TRI, NO_TRI],
   [11, 1, 2, 11, 7, 1, 7, 5, 1, NO_TRI, NO_TRI, NO_TRI, NO_TRI, NO_TRI, NO_TRI, NO_TRI],
   [0, 8, 3, 1, 2, 7, 1, 7, 5, 7, 2, 11, NO_TRI, NO_TRI, NO_TRI, NO_TRI],
   [9, 7, 5, 9, 2, 7, 9, 0, 2, 2, 11, 7, NO_TRI, NO_TRI, NO_TRI, NO_TRI],
   [7, 5, 2, 7, 2, 11, 5, 9, 2, 3, 2, 8, 9, 8, 2, NO_TRI],
   [2, 5, 10, 2, 3, 5, 3, 7, 5, NO_TRI, NO_TRI, NO_TRI, NO_TRI, NO_TRI, NO_TRI, NO_TRI],
   [8, 2, 0, 8, 5, 2, 8, 7, 5, 10, 2, 5, NO_TRI, NO_TRI, NO_TRI, NO_TRI],
   [9, 0, 1, 5, 10, 3, 5, 3, 7, 3, 10, 2, NO_TRI, NO_TRI, NO_TRI, NO_TRI],
   [9, 8, 2, 9, 2, 1, 8, 7, 2, 10, 2, 5, 7, 5, 2, NO_TRI],
   [1, 3, 5, 3, 7, 5, NO_TRI, NO_TRI, NO_TRI, NO_TRI, NO_TRI, NO_TRI, NO_TRI, NO_TRI, NO_TRI, NO_TRI],
   [0, 8, 7, 0, 7, 1, 1, 7, 5, NO_TRI, NO_TRI, NO_TRI, NO_TRI, NO_TRI, NO_TRI, NO_TRI],
   [9, 0, 3, 9, 3, 5, 5, 3, 7, NO_TRI, NO_TRI, NO_TRI, NO_TRI, NO_TRI, NO_TRI, NO_TRI],
   [9, 8, 7, 5, 9, 7, NO_TRI, NO_TRI, NO_TRI, NO_TRI, NO_TRI, NO_TRI, NO_TRI, NO_TRI, NO_TRI, NO_TRI],
   [5, 8, 4, 5, 10, 8, 10, 11, 8, NO_TRI, NO_TRI, NO_TRI, NO_TRI, NO_TRI, NO_TRI, NO_TRI],
   [5, 0, 4, 5, 11, 0, 5, 10, 11, 11, 3, 0, NO_TRI, NO_TRI, NO_TRI, NO_TRI],
   [0, 1, 9, 8, 4, 10, 8, 10, 11, 10, 4, 5, NO_TRI, NO_TRI, NO_TRI, NO_TRI],
   [10, 11, 4, 10, 4, 5, 11, 3, 4, 9, 4, 1, 3, 1, 4, NO_TRI],
   [2, 5, 1, 2, 8, 5, 2, 11, 8, 4, 5, 8, NO_TRI, NO_TRI, NO_TRI, NO_TRI],
   [0, 4, 11, 0, 11, 3, 4, 5, 11, 2, 11, 1, 5, 1, 11, NO_TRI],
   [0, 2, 5, 0, 5, 9, 2, 11, 5, 4, 5, 8, 11, 8, 5, NO_TRI],
   [9, 4, 5, 2, 11, 3, NO_TRI, NO_TRI, NO_TRI, NO_TRI, NO_TRI, NO_TRI, NO_TRI, NO_TRI, NO_TRI, NO_TRI],
   [2, 5, 10, 3, 5, 2, 3, 4, 5, 3, 8, 4, NO_TRI, NO_TRI, NO_TRI, NO_TRI],
   [5, 10, 2, 5, 2, 4, 4, 2, 0, NO_TRI, NO_TRI, NO_TRI, NO_TRI, NO_TRI, NO_TRI, NO_TRI],
   [3, 10, 2, 3, 5, 10, 3, 8, 5, 4, 5, 8, 0, 1, 9, NO_TRI],
   [5, 10, 2, 5, 2, 4, 1, 9, 2, 9, 4, 2, NO_TRI, NO_TRI, NO_TRI, NO_TRI],
   [8, 4, 5, 8, 5, 3, 3, 5, 1, NO_TRI, NO_TRI, NO_TRI, NO_TRI, NO_TRI, NO_TRI, NO_TRI],
   [0, 4, 5, 1, 0, 5, NO_TRI, NO_TRI, NO_TRI, NO_TRI, NO_TRI, NO_TRI, NO_TRI, NO_TRI, NO_TRI, NO_TRI],
   [8, 4, 5, 8, 5, 3, 9, 0, 5, 0, 3, 5, NO_TRI, NO_TRI, NO_TRI, NO_TRI],
   [9, 4, 5, NO_TRI, NO_TRI, NO_TRI, NO_TRI, NO_TRI, NO_TRI, NO_TRI, NO_TRI, NO_TRI, NO_TRI, NO_TRI, NO_TRI, NO_TRI],
   [4, 11, 7, 4, 9, 11, 9, 10, 11, NO_TRI, NO_TRI, NO_TRI, NO_TRI, NO_TRI, NO_TRI, NO_TRI],
   [0, 8, 3, 4, 9, 7, 9, 11, 7, 9, 10, 11, NO_TRI, NO_TRI, NO_TRI, NO_TRI],
   [1, 10, 11, 1, 11, 4, 1, 4, 0, 7, 4, 11, NO_TRI, NO_TRI, NO_TRI, NO_TRI],
   [3, 1, 4, 3, 4, 8, 1, 10, 4, 7, 4, 11, 10, 11, 4, NO_TRI],
   [4, 11, 7, 9, 11, 4, 9, 2, 11, 9, 1, 2, NO_TRI, NO_TRI, NO_TRI, NO_TRI],
   [9, 7, 4, 9, 11, 7, 9, 1, 11, 2, 11, 1, 0, 8, 3, NO_TRI],
   [11, 7, 4, 11, 4, 2, 2, 4, 0, NO_TRI, NO_TRI, NO_TRI, NO_TRI, NO_TRI, NO_TRI, NO_TRI],
   [11, 7, 4, 11, 4, 2, 8, 3, 4, 3, 2, 4, NO_TRI, NO_TRI, NO_TRI, NO_TRI],
   [2, 9, 10, 2, 7, 9, 2, 3, 7, 7, 4, 9, NO_TRI, NO_TRI, NO_TRI, NO_TRI],
   [9, 10, 7, 9, 7, 4, 10, 2, 7, 8, 7, 0, 2, 0, 7, NO_TRI],
   [3, 7, 10, 3, 10, 2, 7, 4, 10, 1, 10, 0, 4, 0, 10, NO_TRI],
   [1, 10, 2, 8, 7, 4, NO_TRI, NO_TRI, NO_TRI, NO_TRI, NO_TRI, NO_TRI, NO_TRI, NO_TRI, NO_TRI, NO_TRI],
   [4, 9, 1, 4, 1, 7, 7, 1, 3, NO_TRI, NO_TRI, NO_TRI, NO_TRI, NO_TRI, NO_TRI, NO_TRI],
   [4, 9, 1, 4, 1, 7, 0, 8, 1, 8, 7, 1, NO_TRI, NO_TRI, NO_TRI, NO_TRI],
   [4, 0, 3, 7, 4, 3, NO_TRI, NO_TRI, NO_TRI, NO_TRI, NO_TRI, NO_TRI, NO_TRI, NO_TRI, NO_TRI, NO_TRI],
   [4, 8, 7, NO_TRI, NO_TRI, NO_TRI, NO_TRI, NO_TRI, NO_TRI, NO_TRI, NO_TRI, NO_TRI, NO_TRI, NO_TRI, NO_TRI, NO_TRI],
   [9, 10, 8, 10, 11, 8, NO_TRI, NO_TRI, NO_TRI, NO_TRI, NO_TRI, NO_TRI, NO_TRI, NO_TRI, NO_TRI, NO_TRI],
   [3, 0, 9, 3, 9, 11, 11, 9, 10, NO_TRI, NO_TRI, NO_TRI, NO_TRI, NO_TRI, NO_TRI, NO_TRI],
   [0, 1, 10, 0, 10, 8, 8, 10, 11, NO_TRI, NO_TRI, NO_TRI, NO_TRI, NO_TRI, NO_TRI, NO_TRI],
   [3, 1, 10, 11, 3, 10, NO_TRI, NO_TRI, NO_TRI, NO_TRI, NO_TRI, NO_TRI, NO_TRI, NO_TRI, NO_TRI, NO_TRI],
   [1, 2, 11, 1, 11, 9, 9, 11, 8, NO_TRI, NO_TRI, NO_TRI, NO_TRI, NO_TRI, NO_TRI, NO_TRI],
   [3, 0, 9, 3, 9, 11, 1, 2, 9, 2, 11, 9, NO_TRI, NO_TRI, NO_TRI, NO_TRI],
   [0, 2, 11, 8, 0, 11, NO_TRI, NO_TRI, NO_TRI, NO_TRI, NO_TRI, NO_TRI, NO_TRI, NO_TRI, NO_TRI, NO_TRI],
   [3, 2, 11, NO_TRI, NO_TRI, NO_TRI, NO_TRI, NO_TRI, NO_TRI, NO_TRI, NO_TRI, NO_TRI, NO_TRI, NO_TRI, NO_TRI, NO_TRI],
   [2, 3, 8, 2, 8, 10, 10, 8, 9, NO_TRI, NO_TRI, NO_TRI, NO_TRI, NO_TRI, NO_TRI, NO_TRI],
   [9, 10, 2, 0, 9, 2, NO_TRI, NO_TRI, NO_TRI, NO_TRI, NO_TRI, NO_TRI, NO_TRI, NO_TRI, NO_TRI, NO_TRI],
   [2, 3, 8, 2, 8, 10, 0, 1, 8, 1, 10, 8, NO_TRI, NO_TRI, NO_TRI, NO_TRI],
   [1, 10, 2, NO_TRI, NO_TRI, NO_TRI, NO_TRI, NO_TRI, NO_TRI, NO_TRI, NO_TRI, NO_TRI, NO_TRI, NO_TRI, NO_TRI, NO_TRI],
   [1, 3, 8, 9, 1, 8, NO_TRI, NO_TRI, NO_TRI, NO_TRI, NO_TRI, NO_TRI, NO_TRI, NO_TRI, NO_TRI, NO_TRI],
   [0, 9, 1, NO_TRI, NO_TRI, NO_TRI, NO_TRI, NO_TRI, NO_TRI, NO_TRI, NO_TRI, NO_TRI, NO_TRI, NO_TRI, NO_TRI, NO_TRI],
   [0, 3, 8, NO_TRI, NO_TRI, NO_TRI, NO_TRI, NO_TRI, NO_TRI, NO_TRI, NO_TRI, NO_TRI, NO_TRI, NO_TRI, NO_TRI, NO_TRI],
   [NO_TRI, NO_TRI, NO_TRI, NO_TRI, NO_TRI, NO_TRI, NO_TRI, NO_TRI, NO_TRI, NO_TRI, NO_TRI, NO_TRI, NO_TRI, NO_TRI, NO_TRI, NO_TRI]]

/-- `vert_interp` (src/vk/model.cpp lines 897-901):
`p1 + (-val1 / (val2 - val1)) * (p2 - p1)`. -/
def vert_interp (p1 p2 : Vec3 ℚ) (val1 val2 : ℚ) : Vec3 ℚ :=
  p1 + (-val1 / (val2 - val1)) • (p2 - p1)

/-- `SHIFT` in `polygonise` = `mxn::world_chunk::CELL_SIZE` = `0.5f`
(world.hpp). -/
def SHIFT : ℚ := 1 / 2

/-- The eight cube corner positions exactly as the twelve `vert_interp` call
sites of `polygonise` (src/vk/model.cpp lines 923-1007) spell them: corner 0
is `cellpos`, corners 1-7 add `SHIFT` to the x/y/z components. -/
def corner_pos (p : Vec3 ℚ) : Fin 8 → Vec3 ℚ
  | 0 => ⟨p.x, p.y, p.z⟩
  | 1 => ⟨p.x + SHIFT, p.y, p.z⟩
  | 2 => ⟨p.x + SHIFT, p.y + SHIFT, p.z⟩
  | 3 => ⟨p.x, p.y + SHIFT, p.z⟩
  | 4 => ⟨p.x, p.y, p.z + SHIFT⟩
  | 5 => ⟨p.x + SHIFT, p.y, p.z + SHIFT⟩
  | 6 => ⟨p.x + SHIFT, p.y + SHIFT, p.z + SHIFT⟩
  | 7 => ⟨p.x, p.y + SHIFT, p.z + SHIFT⟩

/-- The corner pair of each of the twelve cube edges, read off the twelve
`vert_interp` call sites of `polygonise`: edge `k` interpolates from
`(edge_ends k).1` to `(edge_ends k).2` weighted by those corners\' cell
values. -/
def edge_ends (k : ℕ) : Fin 8 × Fin 8 :=
  ([(0, 1), (1, 2), (2, 3), (3, 0), (4, 5), (5, 6), (6, 7), (7, 4),
    (0, 4), (1, 5), (2, 6), (3, 7)] : List (Fin 8 × Fin 8)).getD k (0, 0)

/-- `verts[k]` of `polygonise` when edge `k` is active: the `vert_interp` call
of the matching branch (src/vk/model.cpp lines 923-1007). -/
def edge_vert (cell : Fin 8 → ℚ) (cellpos : Vec3 ℚ) (k : ℕ) : Vec3 ℚ :=
  vert_interp (corner_pos cellpos (edge_ends k).1) (corner_pos cellpos (edge_ends k).2)
    (cell (edge_ends k).1) (cell (edge_ends k).2)

/-- The edges of the cube incident to a given corner. -/
def incident_edges (i : Fin 8) : List ℕ :=
  (List.range 12).filter (fun k => (edge_ends k).1 = i ∨ (edge_ends k).2 = i)

/-- The inside/outside mask loop of `polygonise` (src/vk/model.cpp lines
908-913): `ndx |= (1 << i)` for each corner with `cell[i] < 0.0f`. -/
def cell_index (cell : Fin 8 → ℚ) : ℕ :=
  ([0, 1, 2, 3, 4, 5, 6, 7] : List (Fin 8)).foldl
    (fun a i => if cell i < 0 then a ||| (1 <<< (i : ℕ)) else a) 0

/-- The local-remap loop of `polygonise` (src/vk/model.cpp lines 1015-1021):
walks the triangle-table row; an edge index seen for the first time is
assigned the next output-vertex slot (`local_remap[…] = ret.first.size()`)
and its interpolated vertex is appended. Returns the final remap table and
the output vertex list. -/
def remap_loop (verts : ℕ → Vec3 ℚ) :
    List ℕ → (ℕ → Option ℕ) → List (Vec3 ℚ) → (ℕ → Option ℕ) × List (Vec3 ℚ)
  | [], remap, acc => (remap, acc)
  | t :: rest, remap, acc =>
    match remap t with
    | some _ => remap_loop verts rest remap acc
    | none =>
      remap_loop verts rest (fun k => if k = t then some acc.length else remap k)
        (acc ++ [verts t])

/-- The triangle-emission loop of `polygonise` (src/vk/model.cpp lines
1025-1031): consumes the triangle-table row three entries at a time, mapping
each edge index through the local remap table. -/
def tri_loop (remap : ℕ → Option ℕ) : List ℕ → List (ℕ × ℕ × ℕ)
  | a :: b :: c :: rest =>
    ((remap a).getD 0, (remap b).getD 0, (remap c).getD 0) :: tri_loop remap rest
  | _ => []

/-- `polygonise` (src/vk/model.cpp lines 903-1034): computes the
inside/outside mask, returns empty output when the edge-activity entry is 0,
interpolates a vertex on every active edge, then locally remaps the
triangle-table row into an output vertex list and triangle list. -/
def polygonise (cell : Fin 8 → ℚ) (cellpos : Vec3 ℚ) :
    List (Vec3 ℚ) × List (ℕ × ℕ × ℕ) :=
  let ndx := cell_index cell
  if MARCHING_CUBES_EDGES.getD ndx 0 = 0 then ([], [])
  else
    let verts : ℕ → Vec3 ℚ := fun k =>
      if MARCHING_CUBES_EDGES.getD ndx 0 &&& (1 <<< k) ≠ 0 then edge_vert cell cellpos k
      else 0
    let active :=
      ((MARCHING_CUBES_TRIS.getD ndx []).takeWhile (fun x => x != -1)).map Int.toNat
    let st := remap_loop verts active (fun _ => none) []
    (st.2, tri_loop st.1 active)

/-! # Heightmap triangulation (src/vk/model.cpp lines 223-328)

`model::from_heightmap` builds a 32 x 32 vertex grid, two triangles per grid
cell, then accumulates per-vertex normals from the triangle face normals,
re-normalising after every accumulation. `float` scalars are embedded as `ℝ`
(the normal pass divides by `glm::length`, a square root). -/

/-- `mxn::heightmap` (world.hpp): a 32 x 32 grid of `uint16_t` heights plus a
chunk position. `heights` is the doubly-indexed array `heights[y][x]`; only
indices below `WIDTH = 32` are ever read. -/
structure heightmap where
  position : ℤ × ℤ
  heights : ℕ → ℕ → ℕ

/-- `heightmap::WIDTH` (world.hpp). -/
def heightmap.WIDTH : ℕ := 32

/-- `WM1 = heightmap::WIDTH - 1` (src/vk/model.cpp line 250). -/
def WM1 : ℕ := 31

/-- `heightmap::WORLD_SIZE = static_cast<float>(WIDTH)` (world.hpp). -/
noncomputable def WORLD_SIZE : ℝ := 32

/-- `HSCALE = .00001f` (src/vk/model.cpp line 229), as an exact scalar. -/
noncomputable def HSCALE : ℝ := 1 / 100000

/-- The position of grid vertex `(y, x)` as `from_heightmap` pushes it
(src/vk/model.cpp lines 239-241): `(x + pos_offs.x, y + pos_offs.y,
heights[y][x] * HSCALE)` with `pos_offs = WORLD_SIZE * hmap.position`. -/
noncomputable def hm_vert_pos (hm : heightmap) (y x : ℕ) : Vec3 ℝ :=
  ⟨(x : ℝ) + WORLD_SIZE * (hm.position.1 : ℝ),
   (y : ℝ) + WORLD_SIZE * (hm.position.2 : ℝ),
   (hm.heights y x : ℝ) * HSCALE⟩

/-- Concatenation of `f 0 ++ f 1 ++ … ++ f (n-1)`, mirroring a loop that
appends the block of iteration `i` after all earlier blocks. -/
def rows_concat {α : Type} (f : ℕ → List α) : ℕ → List α
  | 0 => []
  | n + 1 => rows_concat f n ++ f n

/-- The vertex list built by the nested y/x loops of `from_heightmap`
(src/vk/model.cpp lines 235-248): row-major, vertex `(y, x)` at list index
`y * 32 + x`. -/
noncomputable def from_heightmap_verts (hm : heightmap) : List (Vec3 ℝ) :=
  rows_concat (fun y => rows_concat (fun x => [hm_vert_pos hm y x]) 32) 32

/-- The six indices the quad loop writes for one grid cell
(src/vk/model.cpp lines 258-261), in array order `ti … ti+5`:
`vi, vi+WM1+1, vi+1, vi+1, vi+WM1+1, vi+WM1+2`. -/
def quad_indices (vi : ℕ) : List ℕ :=
  [vi, vi + WM1 + 1, vi + 1, vi + 1, vi + WM1 + 1, vi + WM1 + 2]

/-- The index array built by the quad loops of `from_heightmap`
(src/vk/model.cpp lines 254-263). The loop counters satisfy `ti = (z*WM1+x)*6`
and `vi = z*32 + x` (one extra `vi++` per row), so the array is the
concatenation over `z < 31`, `x < 31` of `quad_indices (z*32 + x)`. -/
def from_heightmap_indices : List ℕ :=
  rows_concat (fun z => rows_concat (fun x => quad_indices (z * 32 + x)) WM1) WM1

/-- The consecutive index triples of a list, mirroring the
`for (e = 0; e < indices.size(); e += 3)` traversal of the normal pass
(src/vk/model.cpp line 266). -/
def triples : List ℕ → List (ℕ × ℕ × ℕ)
  | a :: b :: c :: rest => (a, b, c) :: triples rest
  | _ => []

/-- `glm::dot(v, v)`: the squared length. -/
noncomputable def norm_sq (v : Vec3 ℝ) : ℝ := v.x * v.x + v.y * v.y + v.z * v.z

/-- `glm::length`. -/
noncomputable def vec_len (v : Vec3 ℝ) : ℝ := Real.sqrt (norm_sq v)

/-- `glm::normalize`: the vector scaled by the inverse of its length. -/
noncomputable def normalize (v : Vec3 ℝ) : Vec3 ℝ := (vec_len v)⁻¹ • v

/-- Pointwise update of a vertex-indexed normal table, modelling an
assignment `verts[k].normal = v`. -/
def upd (ns : ℕ → Vec3 ℝ) (k : ℕ) (v : Vec3 ℝ) : ℕ → Vec3 ℝ :=
  fun j => if j = k then v else ns j

/-- One iteration of the normal-accumulation loop of `from_heightmap`
(src/vk/model.cpp lines 266-281) on triangle `(e0, e1, e2)`: compute the
normalised face normal `normalize(cross(v1, v2))`, add it to the three vertex
normals, then re-normalise each of the three (in source order e0, e1, e2). -/
noncomputable def tri_normal_step (pos : ℕ → Vec3 ℝ) (e0 e1 e2 : ℕ)
    (ns : ℕ → Vec3 ℝ) : ℕ → Vec3 ℝ :=
  let n := normalize (cross (pos e1 - pos e0) (pos e2 - pos e0))
  let s1 := upd ns e0 (ns e0 + n)
  let s2 := upd s1 e1 (s1 e1 + n)
  let s3 := upd s2 e2 (s2 e2 + n)
  let s4 := upd s3 e0 (normalize (s3 e0))
  let s5 := upd s4 e1 (normalize (s4 e1))
  upd s5 e2 (normalize (s5 e2))

/-- The whole normal-accumulation loop: fold `tri_normal_step` over the index
list three entries at a time. -/
noncomputable def acc_normals (pos : ℕ → Vec3 ℝ) :
    List ℕ → (ℕ → Vec3 ℝ) → (ℕ → Vec3 ℝ)
  | e0 :: e1 :: e2 :: rest, ns => acc_normals pos rest (tri_normal_step pos e0 e1 e2 ns)
  | _, ns => ns

/-- The per-vertex normals of `from_heightmap` after the accumulation pass:
vertex positions are read back from the built vertex list
(`verts[e0].pos` etc.), normals start at the zero initialiser
(src/vk/model.cpp line 245). -/
noncomputable def from_heightmap_normals (hm : heightmap) : ℕ → Vec3 ℝ :=
  acc_normals (fun e => (from_heightmap_verts hm).getD e 0)
    from_heightmap_indices (fun _ => 0)

/-- A vertex normal that is exactly unit (squared) length and points towards
negative z — the form every face normal of the heightmap mesh takes. -/
def normal_ok (v : Vec3 ℝ) : Prop := norm_sq v = 1 ∧ v.z < 0

/-- Invariant of the accumulation state: every vertex normal is still the
zero initialiser, or is unit with negative z. -/
def inv_normals (ns : ℕ → Vec3 ℝ) : Prop := ∀ k, ns k = 0 ∨ normal_ok (ns k)

end Machinate

namespace Machinate

/-! # Claim theorems (first group) -/

/-- C2: for every swapchain extent `(w, h)` with `w ≥ 1`, `h ≥ 1`, the tile
grid computed by `update_lightcull_tilecounts` is the exact ceiling division
of the extent by `TILE_SIZE = 16` in each dimension (characterised both as
`(w + 15) / 16` and by the Galois property `tiles ≤ n ↔ w ≤ 16 * n`), and the
spec's instances hold: extent `(1920, 1080)` yields `(120, 68)` and `(17, 17)`
yields `(2, 2)`. -/
theorem tilecounts_exact_ceiling_division (w h : ℕ) (hw : 1 ≤ w) (hh : 1 ≤ h) :
    update_lightcull_tilecounts w h =
      ((w + TILE_SIZE - 1) / TILE_SIZE, (h + TILE_SIZE - 1) / TILE_SIZE) ∧
    (∀ n : ℕ, (update_lightcull_tilecounts w h).1 ≤ n ↔ w ≤ TILE_SIZE * n) ∧
    (∀ n : ℕ, (update_lightcull_tilecounts w h).2 ≤ n ↔ h ≤ TILE_SIZE * n) ∧
    update_lightcull_tilecounts 1920 1080 = (120, 68) ∧
    update_lightcull_tilecounts 17 17 = (2, 2) := by
  refine ⟨?_, ?_, ?_, by decide, by decide⟩
  · simp only [update_lightcull_tilecounts, TILE_SIZE, Prod.mk.injEq]
    omega
  · intro n
    simp only [update_lightcull_tilecounts, TILE_SIZE]
    omega
  · intro n
    simp only [update_lightcull_tilecounts, TILE_SIZE]
    omega

/-- Witness for `tilecounts_exact_ceiling_division` at the concrete extent
`(1920, 1080)`. -/
theorem tilecounts_exact_ceiling_division_witness :
    (1 ≤ 1920 ∧ 1 ≤ 1080) ∧
      update_lightcull_tilecounts 1920 1080 =
        ((1920 + TILE_SIZE - 1) / TILE_SIZE, (1080 + TILE_SIZE - 1) / TILE_SIZE) :=
  ⟨⟨by decide, by decide⟩,
    (tilecounts_exact_ceiling_division 1920 1080 (by decide) (by decide)).1⟩

/-- C1: for every rendered frame (i.e. for every assignment of the context's
semaphores), the four submissions produced by the render loop form the strict
chain: the light-cull submission waits exactly on the semaphore returned by
`submit_prepass` (= `sema_prepassdone`); the geometry submission waits exactly
on `sema_imgavail` and the semaphore returned by `compute_lightcull`
(= `sema_lightculldone`), at the color-attachment-output and fragment-shader
stages; the overlay submission waits exactly on the semaphore returned by
`submit_geometry` (= `sema_renderdone`); `present_frame` receives the
semaphore returned by `render_imgui` (= `sema_imgui`); and the overlay
submission is the only one of the four that signals the render-completion
fence. -/
theorem frame_submission_chain {σ : Type} (c : render_context σ) :
    (frame_submissions c).1 =
      [⟨[], [], c.sema_prepassdone, false⟩,
       ⟨[(submit_prepass c []).2], [.compute_shader], c.sema_lightculldone, false⟩,
       ⟨[c.sema_imgavail, (compute_lightcull c [(submit_prepass c []).2]).2],
        [.color_attachment_output, .fragment_shader], c.sema_renderdone, false⟩,
       ⟨[(submit_geometry c [(compute_lightcull c [(submit_prepass c []).2]).2]).2],
        [.top_of_pipe], c.sema_imgui, true⟩] ∧
    (frame_submissions c).2 =
      (render_imgui c
        [(submit_geometry c [(compute_lightcull c [(submit_prepass c []).2]).2]).2]).2 ∧
    (frame_submissions c).2 = c.sema_imgui ∧
    ((frame_submissions c).1.map submission.signal_fence) = [false, false, false, true] :=
  ⟨rfl, rfl, rfl, rfl⟩

/-- C3: per-frame acquire and present failures are surfaced as booleans, never
fatally. `start_render` returns `false` exactly when the acquire result is
out-of-date; on every result it performs fence-wait, fence-reset and
image-acquire in that order and stores the acquired image index.
`present_frame` returns `false` exactly on a suboptimal result or on the
(thrown) out-of-date path, and `true` otherwise. -/
theorem acquire_present_failures_are_booleans (st : render_state)
    (res : acquire_result) (idx : ℕ) (pres : present_outcome) :
    ((start_render st res idx).1 = false ↔ res = .error_out_of_date) ∧
    (start_render st res idx).2.1.img_idx = idx ∧
    (start_render st res idx).2.2 =
      [.wait_fence_render, .reset_fence_render, .acquire_next_image] ∧
    ((present_frame st pres).1 = false ↔
      (pres = .ok_suboptimal ∨ pres = .err_out_of_date)) := by
  refine ⟨?_, rfl, rfl, ?_⟩
  · cases res <;> simp [start_render]
  · cases pres <;> simp [present_frame]

/-- C6: `record_image_layout_change` accepts exactly the seven enumerated
layout transitions — it yields an access-mask pair precisely when
`(from, to)` is in `supported_transitions`, and every other combination
reaches the `assert(false)` branch (embedded as `none`), i.e. a fatal abort
rather than an error return. -/
theorem layout_change_supported_iff (lfrom lto : image_layout) :
    (record_image_layout_change lfrom lto).isSome ↔
      (lfrom, lto) ∈ supported_transitions := by
  cases lfrom <;> cases lto <;> decide

/-- C7: `ubo::update` always writes host → staging → device in exactly that
order: its effect trace is precisely map-staging, write-`data`-to-staging,
unmap-staging, then a one-time-command-buffer copy from the staging buffer to
the device-local buffer; in particular no host write ever targets the
device-local allocation. -/
theorem ubo_update_host_staging_device (u : ubo)
    (halloc : u.staging.allocation ≠ u.buffer.allocation) :
    u.update =
      [.map_memory u.staging.allocation, .write_host_data_to u.staging.allocation,
       .unmap_memory u.staging.allocation,
       .onetime_copy u.staging.buffer u.buffer.buffer] ∧
    (∀ a, ubo_event.write_host_data_to a ∈ u.update → a = u.staging.allocation) ∧
    ubo_event.write_host_data_to u.buffer.allocation ∉ u.update := by
  refine ⟨rfl, ?_, ?_⟩
  · intro a ha
    simp [ubo.update, vma_buffer.copy_to] at ha
    exact ha
  · intro hmem
    simp [ubo.update, vma_buffer.copy_to] at hmem
    exact halloc hmem.symm

/-- Witness for `ubo_update_host_staging_device` at a concrete uniform data
block whose staging and device allocations are distinct. -/
theorem ubo_update_host_staging_device_witness :
    ((6 : ℕ) ≠ 3) ∧
      ubo_event.write_host_data_to
          (ubo.mk ⟨1, 2, 3⟩ ⟨4, 5, 6⟩).buffer.allocation ∉
        (ubo.mk ⟨1, 2, 3⟩ ⟨4, 5, 6⟩).update :=
  ⟨by decide, (ubo_update_host_staging_device (ubo.mk ⟨1, 2, 3⟩ ⟨4, 5, 6⟩)
    (by decide)).2.2⟩

/-- C8 counterexample: the claim fails for `vma_buffer`. Moving from the
concrete `vma_buffer ⟨1, 2, 3⟩` leaves the source's handles unchanged (the
struct has no user-declared move operations, so the implicit move is a
memberwise handle copy), and calling `destroy` on the moved-from source is not
a no-op: it frees the transferred allocation a second time. -/
theorem vma_buffer_move_source_not_nulled :
    ¬ (((vma_buffer.move_construct ⟨1, 2, 3⟩).2.buffer = 0 ∧
        (vma_buffer.move_construct ⟨1, 2, 3⟩).2.memory = 0 ∧
        (vma_buffer.move_construct ⟨1, 2, 3⟩).2.allocation = 0) ∧
       vma_buffer.destroy (vma_buffer.move_construct ⟨1, 2, 3⟩).2 = []) := by
  decide

/-- C8 (amended): for `vma_image`, after move construction or move assignment
the moved-from source's handle fields (image, view, memory, allocation) all
read as null and `destroy` on the moved-from source is a no-op (frees
nothing); `vma_buffer`, by contrast, has no user-declared move operations, so
moving leaves the source's handles aliased to the transferred ones, and
`destroy` on a moved-from `vma_buffer` with a live allocation frees it a
second time. -/
theorem vma_image_move_nulls_source (img dst : vma_image) (b : vma_buffer) :
    (vma_image.move_construct img).2 = ⟨0, 0, 0, 0⟩ ∧
    vma_image.destroy (vma_image.move_construct img).2 = [] ∧
    (vma_image.move_assign dst img).2 = ⟨0, 0, 0, 0⟩ ∧
    vma_image.destroy (vma_image.move_assign dst img).2 = [] ∧
    (vma_buffer.move_construct b).2 = b ∧
    (b.allocation ≠ 0 →
      vma_buffer.destroy (vma_buffer.move_construct b).2 =
        [.free_buffer b.buffer b.allocation]) := by
  refine ⟨rfl, rfl, rfl, rfl, rfl, ?_⟩
  intro halloc
  simp [vma_buffer.destroy, vma_buffer.move_construct, halloc]

/-- Witness for `vma_image_move_nulls_source` at concrete wrappers. -/
theorem vma_image_move_nulls_source_witness :
    vma_image.destroy (vma_image.move_construct ⟨7, 8, 9, 10⟩).2 = [] ∧
      vma_buffer.destroy (vma_buffer.move_construct ⟨1, 2, 3⟩).2 =
        [.free_buffer 1 3] :=
  ⟨(vma_image_move_nulls_source ⟨7, 8, 9, 10⟩ ⟨0, 0, 0, 0⟩ ⟨1, 2, 3⟩).2.1,
   (vma_image_move_nulls_source ⟨7, 8, 9, 10⟩ ⟨0, 0, 0, 0⟩ ⟨1, 2, 3⟩).2.2.2.2.2
     (by decide)⟩

/-- Helper: when exactly the corner `i` has a negative cell value, the
inside/outside mask of `polygonise` is the single bit `1 <<< i`. -/
theorem cell_index_single_neg (cell : Fin 8 → ℚ) (i : Fin 8)
    (hb : ∀ j : Fin 8, cell j < 0 ↔ j = i) :
    cell_index cell = 1 <<< (i : ℕ) := by
  fin_cases i <;>
    simp only [cell_index, List.foldl_cons, List.foldl_nil, hb] <;> decide

set_option maxRecDepth 8192 in
/-- C4: for every marching-cubes cell with exactly one negative corner `i`
(and every cell position), `polygonise` returns exactly 3 vertices and
exactly 1 triangle, the corner has exactly three incident cube edges, and
every returned vertex is the interpolation point
`p1 + (-v1 / (v2 - v1)) * (p2 - p1)` of one of the three edges incident to
`i`, between that edge's two corner positions weighted by its two corner
values. -/
theorem polygonise_single_negative_corner (cell : Fin 8 → ℚ) (cellpos : Vec3 ℚ)
    (i : Fin 8) (hneg : cell i < 0) (hpos : ∀ j, j ≠ i → 0 ≤ cell j) :
    (polygonise cell cellpos).1.length = 3 ∧
    (polygonise cell cellpos).2.length = 1 ∧
    (incident_edges i).length = 3 ∧
    ∀ w ∈ (polygonise cell cellpos).1, ∃ k ∈ incident_edges i,
      w = vert_interp (corner_pos cellpos (edge_ends k).1)
            (corner_pos cellpos (edge_ends k).2)
            (cell (edge_ends k).1) (cell (edge_ends k).2) := by
  have hb : ∀ j : Fin 8, cell j < 0 ↔ j = i := by
    intro j
    constructor
    · intro hj
      by_contra hne
      exact absurd hj (not_lt.mpr (hpos j hne))
    · rintro rfl
      exact hneg
  fin_cases i
  · have hndx : cell_index cell = 1 := by
      rw [cell_index_single_neg cell _ hb]
      decide
    have hE : MARCHING_CUBES_EDGES.getD 1 0 = 265 := by decide
    have hT : ((MARCHING_CUBES_TRIS.getD 1 []).takeWhile (fun x => x != -1)).map
        Int.toNat = [0, 8, 3] := by decide
    have hpoly : polygonise cell cellpos =
        ([edge_vert cell cellpos 0, edge_vert cell cellpos 8, edge_vert cell cellpos 3],
         [(0, 1, 2)]) := by
      simp only [polygonise, hndx, hE, hT]
      norm_num [remap_loop, tri_loop, (by decide : (265 : ℕ) &&& 1 <<< 0 ≠ 0),
        (by decide : (265 : ℕ) &&& 1 <<< 8 ≠ 0),
        (by decide : (265 : ℕ) &&& 1 <<< 3 ≠ 0)]
    refine ⟨by simp [hpoly], by simp [hpoly], by decide, ?_⟩
    intro w hw
    rw [hpoly] at hw
    simp only [List.mem_cons, List.not_mem_nil, or_false] at hw
    rcases hw with h | h | h
    · exact ⟨0, by decide, h⟩
    · exact ⟨8, by decide, h⟩
    · exact ⟨3, by decide, h⟩
  · have hndx : cell_index cell = 2 := by
      rw [cell_index_single_neg cell _ hb]
      decide
    have hE : MARCHING_CUBES_EDGES.getD 2 0 = 515 := by decide
    have hT : ((MARCHING_CUBES_TRIS.getD 2 []).takeWhile (fun x => x != -1)).map
        Int.toNat = [0, 1, 9] := by decide
    have hpoly : polygonise cell cellpos =
        ([edge_vert cell cellpos 0, edge_vert cell cellpos 1, edge_vert cell cellpos 9],
         [(0, 1, 2)]) := by
      simp only [polygonise, hndx, hE, hT]
      norm_num [remap_loop, tri_loop, (by decide : (515 : ℕ) &&& 1 <<< 0 ≠ 0),
        (by decide : (515 : ℕ) &&& 1 <<< 1 ≠ 0),
        (by decide : (515 : ℕ) &&& 1 <<< 9 ≠ 0)]
    refine ⟨by simp [hpoly], by simp [hpoly], by decide, ?_⟩
    intro w hw
    rw [hpoly] at hw
    simp only [List.mem_cons, List.not_mem_nil, or_false] at hw
    rcases hw with h | h | h
    · exact ⟨0, by decide, h⟩
    · exact ⟨1, by decide, h⟩
    · exact ⟨9, by decide, h⟩
  · have hndx : cell_index cell = 4 := by
      rw [cell_index_single_neg cell _ hb]
      decide
    have hE : MARCHING_CUBES_EDGES.getD 4 0 = 1030 := by decide
    have hT : ((MARCHING_CUBES_TRIS.getD 4 []).takeWhile (fun x => x != -1)).map
        Int.toNat = [1, 2, 10] := by decide
    have hpoly : polygonise cell cellpos =
        ([edge_vert cell cellpos 1, edge_vert cell cellpos 2, edge_vert cell cellpos 10],
         [(0, 1, 2)]) := by
      simp only [polygonise, hndx, hE, hT]
      norm_num [remap_loop, tri_loop, (by decide : (1030 : ℕ) &&& 1 <<< 1 ≠ 0),
        (by decide : (1030 : ℕ) &&& 1 <<< 2 ≠ 0),
        (by decide : (1030 : ℕ) &&& 1 <<< 10 ≠ 0)]
    refine ⟨by simp [hpoly], by simp [hpoly], by decide, ?_⟩
    intro w hw
    rw [hpoly] at hw
    simp only [List.mem_cons, List.not_mem_nil, or_false] at hw
    rcases hw with h | h | h
    · exact ⟨1, by decide, h⟩
    · exact ⟨2, by decide, h⟩
    · exact ⟨10, by decide, h⟩
  · have hndx : cell_index cell = 8 := by
      rw [cell_index_single_neg cell _ hb]
      decide
    have hE : MARCHING_CUBES_EDGES.getD 8 0 = 2060 := by decide
    have hT : ((MARCHING_CUBES_TRIS.getD 8 []).takeWhile (fun x => x != -1)).map
        Int.toNat = [3, 11, 2] := by decide
    have hpoly : polygonise cell cellpos =
        ([edge_vert cell cellpos 3, edge_vert cell cellpos 11, edge_vert cell cellpos 2],
         [(0, 1, 2)]) := by
      simp only [polygonise, hndx, hE, hT]
      norm_num [remap_loop, tri_loop, (by decide : (2060 : ℕ) &&& 1 <<< 3 ≠ 0),
        (by decide : (2060 : ℕ) &&& 1 <<< 11 ≠ 0),
        (by decide : (2060 : ℕ) &&& 1 <<< 2 ≠ 0)]
    refine ⟨by simp [hpoly], by simp [hpoly], by decide, ?_⟩
    intro w hw
    rw [hpoly] at hw
    simp only [List.mem_cons, List.not_mem_nil, or_false] at hw
    rcases hw with h | h | h
    · exact ⟨3, by decide, h⟩
    · exact ⟨11, by decide, h⟩
    · exact ⟨2, by decide, h⟩
  · have hndx : cell_index cell = 16 := by
      rw [cell_index_single_neg cell _ hb]
      decide
    have hE : MARCHING_CUBES_EDGES.getD 16 0 = 400 := by decide
    have hT : ((MARCHING_CUBES_TRIS.getD 16 []).takeWhile (fun x => x != -1)).map
        Int.toNat = [4, 7, 8] := by decide
    have hpoly : polygonise cell cellpos =
        ([edge_vert cell cellpos 4, edge_vert cell cellpos 7, edge_vert cell cellpos 8],
         [(0, 1, 2)]) := by
      simp only [polygonise, hndx, hE, hT]
      norm_num [remap_loop, tri_loop, (by decide : (400 : ℕ) &&& 1 <<< 4 ≠ 0),
        (by decide : (400 : ℕ) &&& 1 <<< 7 ≠ 0),
        (by decide : (400 : ℕ) &&& 1 <<< 8 ≠ 0)]
    refine ⟨by simp [hpoly], by simp [hpoly], by decide, ?_⟩
    intro w hw
    rw [hpoly] at hw
    simp only [List.mem_cons, List.not_mem_nil, or_false] at hw
    rcases hw with h | h | h
    · exact ⟨4, by decide, h⟩
    · exact ⟨7, by decide, h⟩
    · exact ⟨8, by decide, h⟩
  · have hndx : cell_index cell = 32 := by
      rw [cell_index_single_neg cell _ hb]
      decide
    have hE : MARCHING_CUBES_EDGES.getD 32 0 = 560 := by decide
    have hT : ((MARCHING_CUBES_TRIS.getD 32 []).takeWhile (fun x => x != -1)).map
        Int.toNat = [9, 5, 4] := by decide
    have hpoly : polygonise cell cellpos =
        ([edge_vert cell cellpos 9, edge_vert cell cellpos 5, edge_vert cell cellpos 4],
         [(0, 1, 2)]) := by
      simp only [polygonise, hndx, hE, hT]
      norm_num [remap_loop, tri_loop, (by decide : (560 : ℕ) &&& 1 <<< 9 ≠ 0),
        (by decide : (560 : ℕ) &&& 1 <<< 5 ≠ 0),
        (by decide : (560 : ℕ) &&& 1 <<< 4 ≠ 0)]
    refine ⟨by simp [hpoly], by simp [hpoly], by decide, ?_⟩
    intro w hw
    rw [hpoly] at hw
    simp only [List.mem_cons, List.not_mem_nil, or_false] at hw
    rcases hw with h | h | h
    · exact ⟨9, by decide, h⟩
    · exact ⟨5, by decide, h⟩
    · exact ⟨4, by decide, h⟩
  · have hndx : cell_index cell = 64 := by
      rw [cell_index_single_neg cell _ hb]
      decide
    have hE : MARCHING_CUBES_EDGES.getD 64 0 = 1120 := by decide
    have hT : ((MARCHING_CUBES_TRIS.getD 64 []).takeWhile (fun x => x != -1)).map
        Int.toNat = [10, 6, 5] := by decide
    have hpoly : polygonise cell cellpos =
        ([edge_vert cell cellpos 10, edge_vert cell cellpos 6, edge_vert cell cellpos 5],
         [(0, 1, 2)]) := by
      simp only [polygonise, hndx, hE, hT]
      norm_num [remap_loop, tri_loop, (by decide : (1120 : ℕ) &&& 1 <<< 10 ≠ 0),
        (by decide : (1120 : ℕ) &&& 1 <<< 6 ≠ 0),
        (by decide : (1120 : ℕ) &&& 1 <<< 5 ≠ 0)]
    refine ⟨by simp [hpoly], by simp [hpoly], by decide, ?_⟩
    intro w hw
    rw [hpoly] at hw
    simp only [List.mem_cons, List.not_mem_nil, or_false] at hw
    rcases hw with h | h | h
    · exact ⟨10, by decide, h⟩
    · exact ⟨6, by decide, h⟩
    · exact ⟨5, by decide, h⟩
  · have hndx : cell_index cell = 128 := by
      rw [cell_index_single_neg cell _ hb]
      decide
    have hE : MARCHING_CUBES_EDGES.getD 128 0 = 2240 := by decide
    have hT : ((MARCHING_CUBES_TRIS.getD 128 []).takeWhile (fun x => x != -1)).map
        Int.toNat = [7, 6, 11] := by decide
    have hpoly : polygonise cell cellpos =
        ([edge_vert cell cellpos 7, edge_vert cell cellpos 6, edge_vert cell cellpos 11],
         [(0, 1, 2)]) := by
      simp only [polygonise, hndx, hE, hT]
      norm_num [remap_loop, tri_loop, (by decide : (2240 : ℕ) &&& 1 <<< 7 ≠ 0),
        (by decide : (2240 : ℕ) &&& 1 <<< 6 ≠ 0),
        (by decide : (2240 : ℕ) &&& 1 <<< 11 ≠ 0)]
    refine ⟨by simp [hpoly], by simp [hpoly], by decide, ?_⟩
    intro w hw
    rw [hpoly] at hw
    simp only [List.mem_cons, List.not_mem_nil, or_false] at hw
    rcases hw with h | h | h
    · exact ⟨7, by decide, h⟩
    · exact ⟨6, by decide, h⟩
    · exact ⟨11, by decide, h⟩

/-- Witness for `polygonise_single_negative_corner` at the concrete cell with
corner 0 negative and all other corners `1`. -/
theorem polygonise_single_negative_corner_witness :
    ((fun j : Fin 8 => if j = 0 then (-1 : ℚ) else 1) 0 < 0) ∧
      (polygonise (fun j : Fin 8 => if j = 0 then (-1 : ℚ) else 1)
        ⟨0, 0, 0⟩).1.length = 3 :=
  ⟨by decide,
    (polygonise_single_negative_corner (fun j : Fin 8 => if j = 0 then (-1 : ℚ) else 1)
      ⟨0, 0, 0⟩ 0 (by decide) (by decide)).1⟩

set_option maxRecDepth 8192 in
/-- C9: for every marching-cubes cell whose eight corner values are all
positive or all negative, `polygonise` returns zero vertices and zero
triangles, because the mask is 0 resp. 255 and the edge-activity table entry
at the mask is 0. -/
theorem polygonise_uniform_sign_empty (cell : Fin 8 → ℚ) (cellpos : Vec3 ℚ)
    (h : (∀ j, 0 < cell j) ∨ (∀ j, cell j < 0)) :
    polygonise cell cellpos = ([], []) ∧
    (cell_index cell = 0 ∨ cell_index cell = 255) ∧
    MARCHING_CUBES_EDGES.getD (cell_index cell) 0 = 0 := by
  rcases h with h | h
  · have h0 : cell_index cell = 0 := by
      have hb : ∀ j : Fin 8, cell j < 0 ↔ False :=
        fun j => iff_false_intro (not_lt.mpr (le_of_lt (h j)))
      simp only [cell_index, List.foldl_cons, List.foldl_nil, hb]
      decide
    refine ⟨?_, Or.inl h0, by rw [h0]; decide⟩
    simp only [polygonise, h0]
    rw [if_pos (by decide : MARCHING_CUBES_EDGES.getD 0 0 = 0)]
  · have h255 : cell_index cell = 255 := by
      have hb : ∀ j : Fin 8, cell j < 0 ↔ True := fun j => iff_true_intro (h j)
      simp only [cell_index, List.foldl_cons, List.foldl_nil, hb]
      decide
    refine ⟨?_, Or.inr h255, by rw [h255]; decide⟩
    simp only [polygonise, h255]
    rw [if_pos (by decide : MARCHING_CUBES_EDGES.getD 255 0 = 0)]

/-- Witness for `polygonise_uniform_sign_empty` at the all-positive cell with
every corner `1`. -/
theorem polygonise_uniform_sign_empty_witness :
    (∀ j : Fin 8, (0 : ℚ) < (fun _ : Fin 8 => (1 : ℚ)) j) ∧
      polygonise (fun _ : Fin 8 => (1 : ℚ)) ⟨0, 0, 0⟩ = ([], []) :=
  ⟨fun _ => by norm_num,
    (polygonise_uniform_sign_empty (fun _ : Fin 8 => (1 : ℚ)) ⟨0, 0, 0⟩
      (Or.inl (fun _ => by norm_num))).1⟩

/-- C10: every call to `present_frame` — including the suboptimal and
out-of-date (thrown) paths, which return `false` — increments the context's
`frame` counter by exactly one, and the other frame-state operations
(`start_render`, `rebuild_swapchain`) leave the counter unchanged: the
counter counts presentation attempts, not successful presents. -/
theorem present_frame_counts_attempts (st : render_state)
    (pres : present_outcome) (res : acquire_result) (idx : ℕ) :
    (present_frame st pres).2.frame = st.frame + 1 ∧
    (start_render st res idx).2.1.frame = st.frame ∧
    (rebuild_swapchain st).frame = st.frame := by
  refine ⟨?_, rfl, rfl⟩
  cases pres <;> rfl

end Machinate

namespace Machinate

/-! # Helper lemmas for the heightmap development -/

@[simp]
theorem Vec3_add_x {α : Type} [Add α] (a b : Vec3 α) : (a + b).x = a.x + b.x := rfl

@[simp]
theorem Vec3_add_y {α : Type} [Add α] (a b : Vec3 α) : (a + b).y = a.y + b.y := rfl

@[simp]
theorem Vec3_add_z {α : Type} [Add α] (a b : Vec3 α) : (a + b).z = a.z + b.z := rfl

@[simp]
theorem Vec3_sub_x {α : Type} [Sub α] (a b : Vec3 α) : (a - b).x = a.x - b.x := rfl

@[simp]
theorem Vec3_sub_y {α : Type} [Sub α] (a b : Vec3 α) : (a - b).y = a.y - b.y := rfl

@[simp]
theorem Vec3_sub_z {α : Type} [Sub α] (a b : Vec3 α) : (a - b).z = a.z - b.z := rfl

@[simp]
theorem Vec3_smul_x {α : Type} [Mul α] (t : α) (v : Vec3 α) : (t • v).x = t * v.x := rfl

@[simp]
theorem Vec3_smul_y {α : Type} [Mul α] (t : α) (v : Vec3 α) : (t • v).y = t * v.y := rfl

@[simp]
theorem Vec3_smul_z {α : Type} [Mul α] (t : α) (v : Vec3 α) : (t • v).z = t * v.z := rfl

@[simp]
theorem Vec3_zero_x {α : Type} [Zero α] : (0 : Vec3 α).x = 0 := rfl

@[simp]
theorem Vec3_zero_y {α : Type} [Zero α] : (0 : Vec3 α).y = 0 := rfl

@[simp]
theorem Vec3_zero_z {α : Type} [Zero α] : (0 : Vec3 α).z = 0 := rfl

@[simp]
theorem cross_z_eq {α : Type} [Ring α] (a b : Vec3 α) :
    (cross a b).z = a.x * b.y - a.y * b.x := rfl

theorem upd_self (ns : ℕ → Vec3 ℝ) (e : ℕ) (v : Vec3 ℝ) : upd ns e v e = v := by
  simp [upd]

theorem upd_ne (ns : ℕ → Vec3 ℝ) (e : ℕ) (v : Vec3 ℝ) (j : ℕ) (h : j ≠ e) :
    upd ns e v j = ns j := by
  simp [upd, h]

theorem rows_concat_length {α : Type} (f : ℕ → List α) (c : ℕ)
    (hf : ∀ i, (f i).length = c) : ∀ n, (rows_concat f n).length = n * c
  | 0 => by simp [rows_concat]
  | n + 1 => by
    simp only [rows_concat, List.length_append, rows_concat_length f c hf n, hf n,
      Nat.succ_mul]

theorem rows_concat_getD {α : Type} (f : ℕ → List α) (c : ℕ) (d : α)
    (hf : ∀ i, (f i).length = c) :
    ∀ n q r, q < n → r < c → (rows_concat f n).getD (q * c + r) d = (f q).getD r d
  | 0, q, r => fun hq _ => absurd hq (Nat.not_lt_zero q)
  | n + 1, q, r => fun hq hr => by
    have hlen : (rows_concat f n).length = n * c := rows_concat_length f c hf n
    by_cases hqn : q < n
    · have hbound : q * c + r < (rows_concat f n).length := by
        rw [hlen]
        have h1 : q * c + r < (q + 1) * c := by rw [Nat.succ_mul]; omega
        exact lt_of_lt_of_le h1 (Nat.mul_le_mul_right c hqn)
      rw [rows_concat, List.getD_append _ _ _ _ hbound]
      exact rows_concat_getD f c d hf n q r hqn hr
    · have hq_eq : q = n := by omega
      have hge : (rows_concat f n).length ≤ q * c + r := by
        rw [hlen, hq_eq]
        exact Nat.le_add_right _ r
      rw [rows_concat, List.getD_append_right _ _ _ _ hge]
      have hidx : q * c + r - (rows_concat f n).length = r := by
        rw [hlen, hq_eq]
        exact Nat.add_sub_cancel_left (n * c) r
      rw [hidx, hq_eq]

theorem from_heightmap_verts_getD (hm : heightmap) (y x : ℕ)
    (hy : y < 32) (hx : x < 32) :
    (from_heightmap_verts hm).getD (y * 32 + x) 0 = hm_vert_pos hm y x := by
  have hrow : ∀ i, ((fun y => rows_concat (fun x => [hm_vert_pos hm y x]) 32) i).length
      = 32 := by
    intro i
    have h1 : ∀ w, ([hm_vert_pos hm i w] : List (Vec3 ℝ)).length = 1 := fun _ => rfl
    rw [show ((fun y => rows_concat (fun x => [hm_vert_pos hm y x]) 32) i)
        = rows_concat (fun x => [hm_vert_pos hm i x]) 32 from rfl,
      rows_concat_length _ 1 h1 32]
  rw [from_heightmap_verts, rows_concat_getD _ 32 _ hrow 32 y x hy hx]
  show (rows_concat (fun w => [hm_vert_pos hm y w]) 32).getD x 0 = hm_vert_pos hm y x
  have h1 : ∀ w, ([hm_vert_pos hm y w] : List (Vec3 ℝ)).length = 1 := fun _ => rfl
  have hx1 : x = x * 1 + 0 := by omega
  rw [hx1, rows_concat_getD _ 1 _ h1 32 x 0 (by omega) (by omega)]
  simp

theorem mem_rows_concat {α : Type} (f : ℕ → List α) :
    ∀ (n : ℕ) (a : α), a ∈ rows_concat f n ↔ ∃ i, i < n ∧ a ∈ f i
  | 0, a => by simp [rows_concat]
  | n + 1, a => by
    rw [rows_concat, List.mem_append, mem_rows_concat f n a]
    constructor
    · rintro (⟨i, hi, ha⟩ | ha)
      · exact ⟨i, by omega, ha⟩
      · exact ⟨n, by omega, ha⟩
    · rintro ⟨i, hi, ha⟩
      by_cases h : i < n
      · exact Or.inl ⟨i, h, ha⟩
      · have : i = n := by omega
        subst this
        exact Or.inr ha

theorem rows_concat_congr {α : Type} (f g : ℕ → List α) (h : ∀ i, f i = g i) :
    ∀ n, rows_concat f n = rows_concat g n
  | 0 => rfl
  | n + 1 => by rw [rows_concat, rows_concat, rows_concat_congr f g h n, h n]

theorem rows_concat_length_mod3 (f : ℕ → List ℕ) (h3 : ∀ i, (f i).length % 3 = 0) :
    ∀ n, (rows_concat f n).length % 3 = 0
  | 0 => rfl
  | n + 1 => by
    have h1 := rows_concat_length_mod3 f h3 n
    have h2 := h3 n
    simp only [rows_concat, List.length_append]
    omega

theorem triples_append : ∀ (l1 l2 : List ℕ), l1.length % 3 = 0 →
    triples (l1 ++ l2) = triples l1 ++ triples l2
  | [], _, _ => rfl
  | [a], _, h => by simp at h
  | [a, b], _, h => by simp at h
  | a :: b :: c :: t, l2, h => by
    have ht : t.length % 3 = 0 := by
      simp only [List.length_cons] at h
      omega
    have hsplit : (a :: b :: c :: t) ++ l2 = a :: b :: c :: (t ++ l2) := rfl
    rw [hsplit]
    show (a, b, c) :: triples (t ++ l2) = ((a, b, c) :: triples t) ++ triples l2
    rw [triples_append t l2 ht]
    rfl

theorem triples_rows_concat (f : ℕ → List ℕ) (h3 : ∀ i, (f i).length % 3 = 0) :
    ∀ n, triples (rows_concat f n) = rows_concat (fun i => triples (f i)) n
  | 0 => rfl
  | n + 1 => by
    rw [rows_concat, triples_append (rows_concat f n) (f n) (rows_concat_length_mod3 f h3 n),
      triples_rows_concat f h3 n, rows_concat]

theorem triples_quad (vi : ℕ) :
    triples (quad_indices vi) =
      [(vi, vi + 32, vi + 1), (vi + 1, vi + 32, vi + 33)] := by
  norm_num [quad_indices, triples, WM1]

theorem triples_from_heightmap_indices :
    triples from_heightmap_indices =
      rows_concat (fun z => rows_concat (fun x =>
        [(z * 32 + x, z * 32 + x + 32, z * 32 + x + 1),
         (z * 32 + x + 1, z * 32 + x + 32, z * 32 + x + 33)]) WM1) WM1 := by
  rw [from_heightmap_indices,
    triples_rows_concat (fun z => rows_concat (fun x => quad_indices (z * 32 + x)) WM1)
      (fun z => rows_concat_length_mod3 (fun x => quad_indices (z * 32 + x))
        (fun _ => by simp [quad_indices]) WM1)]
  refine rows_concat_congr _ _ (fun z => ?_) WM1
  rw [triples_rows_concat (fun x => quad_indices (z * 32 + x))
    (fun _ => by simp [quad_indices])]
  exact rows_concat_congr _ _ (fun x => triples_quad _) WM1

theorem mem_triples_from_heightmap (t : ℕ × ℕ × ℕ) :
    t ∈ triples from_heightmap_indices ↔
      ∃ z, z < 31 ∧ ∃ x, x < 31 ∧
        (t = (z * 32 + x, z * 32 + x + 32, z * 32 + x + 1) ∨
         t = (z * 32 + x + 1, z * 32 + x + 32, z * 32 + x + 33)) := by
  rw [triples_from_heightmap_indices]
  rw [mem_rows_concat]
  constructor
  · rintro ⟨z, hz, ht⟩
    rw [mem_rows_concat] at ht
    obtain ⟨x, hx, ht⟩ := ht
    simp only [List.mem_cons, List.not_mem_nil, or_false] at ht
    exact ⟨z, by simpa [WM1] using hz, x, by simpa [WM1] using hx, ht⟩
  · rintro ⟨z, hz, x, hx, ht⟩
    refine ⟨z, by simpa [WM1] using hz, ?_⟩
    rw [mem_rows_concat]
    refine ⟨x, by simpa [WM1] using hx, ?_⟩
    simpa only [List.mem_cons, List.not_mem_nil, or_false] using ht


/-! # Unit-normal lemmas for the heightmap mesh -/

theorem norm_sq_pos_of_z_neg {v : Vec3 ℝ} (hz : v.z < 0) : 0 < norm_sq v := by
  have hx := mul_self_nonneg v.x
  have hy := mul_self_nonneg v.y
  have hzz : 0 < v.z * v.z := mul_pos_of_neg_of_neg hz hz
  unfold norm_sq
  linarith

theorem normalize_normal_ok {v : Vec3 ℝ} (hz : v.z < 0) : normal_ok (normalize v) := by
  have hS : 0 < norm_sq v := norm_sq_pos_of_z_neg hz
  have hsqrt : 0 < vec_len v :=
    Real.sqrt_pos.mpr hS
  have key : ((vec_len v)⁻¹ * (vec_len v)⁻¹) * norm_sq v = 1 := by
    rw [← mul_inv,
      show vec_len v * vec_len v = norm_sq v from Real.mul_self_sqrt hS.le]
    exact inv_mul_cancel₀ (ne_of_gt hS)
  constructor
  · have expand : norm_sq ((vec_len v)⁻¹ • v) =
        ((vec_len v)⁻¹ * (vec_len v)⁻¹) * norm_sq v := by
      simp only [norm_sq, Vec3_smul_x, Vec3_smul_y, Vec3_smul_z]
      ring
    rw [show normalize v = (vec_len v)⁻¹ • v from rfl, expand, key]
  · rw [show (normalize v).z = (vec_len v)⁻¹ * v.z from rfl]
    exact mul_neg_of_pos_of_neg (inv_pos.mpr hsqrt) hz

theorem normal_ok_ne_zero {v : Vec3 ℝ} (h : normal_ok v) : v ≠ 0 := by
  intro h0
  rcases h with ⟨-, hz⟩
  rw [h0] at hz
  simp at hz

theorem upd_add_all_z_le (ns : ℕ → Vec3 ℝ) (e : ℕ) (n : Vec3 ℝ)
    (hall : ∀ k, (ns k).z ≤ 0) (hn : n.z < 0) :
    (∀ k, (upd ns e (ns e + n) k).z ≤ 0) ∧ (upd ns e (ns e + n) e).z < 0 := by
  constructor
  · intro k
    by_cases h : k = e
    · subst h
      rw [upd_self]
      simp only [Vec3_add_z]
      linarith [hall k]
    · rw [upd_ne ns e _ k h]
      exact hall k
  · rw [upd_self]
    simp only [Vec3_add_z]
    linarith [hall e]

theorem upd_add_keeps_z_neg (ns : ℕ → Vec3 ℝ) (e : ℕ) (n : Vec3 ℝ) (j : ℕ)
    (hj : (ns j).z < 0) (hn : n.z < 0) :
    (upd ns e (ns e + n) j).z < 0 := by
  by_cases h : j = e
  · subst h
    rw [upd_self]
    simp only [Vec3_add_z]
    linarith
  · rw [upd_ne ns e _ j h]
    exact hj

theorem tri_normal_step_spec (pos : ℕ → Vec3 ℝ) (e0 e1 e2 : ℕ) (ns : ℕ → Vec3 ℝ)
    (hns : inv_normals ns)
    (hz : (cross (pos e1 - pos e0) (pos e2 - pos e0)).z < 0) :
    (∀ k, k ≠ e0 → k ≠ e1 → k ≠ e2 → tri_normal_step pos e0 e1 e2 ns k = ns k) ∧
    normal_ok (tri_normal_step pos e0 e1 e2 ns e0) ∧
    normal_ok (tri_normal_step pos e0 e1 e2 ns e1) ∧
    normal_ok (tri_normal_step pos e0 e1 e2 ns e2) := by
  have hzle : ∀ k, (ns k).z ≤ 0 := by
    intro k
    rcases hns k with h | h
    · rw [h]
      simp
    · exact le_of_lt h.2
  set n := normalize (cross (pos e1 - pos e0) (pos e2 - pos e0)) with hn
  have hnok : normal_ok n := by
    rw [hn]
    exact normalize_normal_ok hz
  set s1 := upd ns e0 (ns e0 + n) with hs1
  set s2 := upd s1 e1 (s1 e1 + n) with hs2
  set s3 := upd s2 e2 (s2 e2 + n) with hs3
  set s4 := upd s3 e0 (normalize (s3 e0)) with hs4
  set s5 := upd s4 e1 (normalize (s4 e1)) with hs5
  have hstep : tri_normal_step pos e0 e1 e2 ns = upd s5 e2 (normalize (s5 e2)) := rfl
  have hz1all : ∀ k, (s1 k).z ≤ 0 := by
    rw [hs1]
    exact (upd_add_all_z_le ns e0 n hzle hnok.2).1
  have hz1e0 : (s1 e0).z < 0 := by
    rw [hs1]
    exact (upd_add_all_z_le ns e0 n hzle hnok.2).2
  have hz2all : ∀ k, (s2 k).z ≤ 0 := by
    rw [hs2]
    exact (upd_add_all_z_le s1 e1 n hz1all hnok.2).1
  have hz2e1 : (s2 e1).z < 0 := by
    rw [hs2]
    exact (upd_add_all_z_le s1 e1 n hz1all hnok.2).2
  have hz2e0 : (s2 e0).z < 0 := by
    rw [hs2]
    exact upd_add_keeps_z_neg s1 e1 n e0 hz1e0 hnok.2
  have hz3e2 : (s3 e2).z < 0 := by
    rw [hs3]
    exact (upd_add_all_z_le s2 e2 n hz2all hnok.2).2
  have hz3e0 : (s3 e0).z < 0 := by
    rw [hs3]
    exact upd_add_keeps_z_neg s2 e2 n e0 hz2e0 hnok.2
  have hz3e1 : (s3 e1).z < 0 := by
    rw [hs3]
    exact upd_add_keeps_z_neg s2 e2 n e1 hz2e1 hnok.2
  have hok4e0 : normal_ok (s4 e0) := by
    rw [hs4, upd_self]
    exact normalize_normal_ok hz3e0
  have hs4other : ∀ k, k ≠ e0 → s4 k = s3 k := by
    intro k hk
    rw [hs4, upd_ne _ _ _ k hk]
  have hz4e1 : (s4 e1).z < 0 := by
    by_cases h : e1 = e0
    · rw [h]
      exact hok4e0.2
    · rw [hs4other e1 h]
      exact hz3e1
  have hz4e2 : (s4 e2).z < 0 := by
    by_cases h : e2 = e0
    · rw [h]
      exact hok4e0.2
    · rw [hs4other e2 h]
      exact hz3e2
  have hok5e1 : normal_ok (s5 e1) := by
    rw [hs5, upd_self]
    exact normalize_normal_ok hz4e1
  have hs5other : ∀ k, k ≠ e1 → s5 k = s4 k := by
    intro k hk
    rw [hs5, upd_ne _ _ _ k hk]
  have hok5e0 : normal_ok (s5 e0) := by
    by_cases h : e0 = e1
    · rw [h]
      exact hok5e1
    · rw [hs5other e0 h]
      exact hok4e0
  have hz5e2 : (s5 e2).z < 0 := by
    by_cases h : e2 = e1
    · rw [h]
      exact hok5e1.2
    · rw [hs5other e2 h]
      exact hz4e2
  have hfin_e2 : normal_ok (tri_normal_step pos e0 e1 e2 ns e2) := by
    rw [hstep, upd_self]
    exact normalize_normal_ok hz5e2
  have hfin_other : ∀ k, k ≠ e2 → tri_normal_step pos e0 e1 e2 ns k = s5 k := by
    intro k hk
    rw [hstep, upd_ne _ _ _ k hk]
  have hfin_e1 : normal_ok (tri_normal_step pos e0 e1 e2 ns e1) := by
    by_cases h : e1 = e2
    · rw [congrArg (tri_normal_step pos e0 e1 e2 ns) h]
      exact hfin_e2
    · rw [hfin_other e1 h]
      exact hok5e1
  have hfin_e0 : normal_ok (tri_normal_step pos e0 e1 e2 ns e0) := by
    by_cases h : e0 = e2
    · rw [congrArg (tri_normal_step pos e0 e1 e2 ns) h]
      exact hfin_e2
    · rw [hfin_other e0 h]
      exact hok5e0
  refine ⟨?_, hfin_e0, hfin_e1, hfin_e2⟩
  intro k h0 h1 h2
  rw [hfin_other k h2, hs5, upd_ne _ _ _ k h1, hs4, upd_ne _ _ _ k h0,
    hs3, upd_ne _ _ _ k h2, hs2, upd_ne _ _ _ k h1, hs1, upd_ne _ _ _ k h0]


theorem acc_normals_spec (pos : ℕ → Vec3 ℝ) :
    ∀ (l : List ℕ) (ns : ℕ → Vec3 ℝ), inv_normals ns →
      (∀ t ∈ triples l,
        (cross (pos t.2.1 - pos t.1) (pos t.2.2 - pos t.1)).z < 0) →
      inv_normals (acc_normals pos l ns) ∧
      ∀ k, (ns k ≠ 0 ∨ ∃ t ∈ triples l, k = t.1 ∨ k = t.2.1 ∨ k = t.2.2) →
        acc_normals pos l ns k ≠ 0
  | [], ns, hns, _ => by
    refine ⟨hns, ?_⟩
    intro k hk
    rcases hk with h | ⟨t, ht, -⟩
    · exact h
    · simp [triples] at ht
  | [a], ns, hns, _ => by
    refine ⟨hns, ?_⟩
    intro k hk
    rcases hk with h | ⟨t, ht, -⟩
    · exact h
    · simp [triples] at ht
  | [a, b], ns, hns, _ => by
    refine ⟨hns, ?_⟩
    intro k hk
    rcases hk with h | ⟨t, ht, -⟩
    · exact h
    · simp [triples] at ht
  | e0 :: e1 :: e2 :: rest, ns, hns, hcross => by
    have hc0 := hcross (e0, e1, e2) (by simp [triples])
    obtain ⟨hother, hok0, hok1, hok2⟩ := tri_normal_step_spec pos e0 e1 e2 ns hns hc0
    have hstep_inv : inv_normals (tri_normal_step pos e0 e1 e2 ns) := by
      intro k
      by_cases h2 : k = e2
      · subst h2
        exact Or.inr hok2
      · by_cases h1 : k = e1
        · subst h1
          exact Or.inr hok1
        · by_cases h0 : k = e0
          · subst h0
            exact Or.inr hok0
          · rw [hother k h0 h1 h2]
            exact hns k
    have hstep_nz : ∀ k, (ns k ≠ 0 ∨ k = e0 ∨ k = e1 ∨ k = e2) →
        tri_normal_step pos e0 e1 e2 ns k ≠ 0 := by
      intro k hk
      by_cases h2 : k = e2
      · subst h2
        exact normal_ok_ne_zero hok2
      · by_cases h1 : k = e1
        · subst h1
          exact normal_ok_ne_zero hok1
        · by_cases h0 : k = e0
          · subst h0
            exact normal_ok_ne_zero hok0
          · rw [hother k h0 h1 h2]
            rcases hk with h | h | h | h
            · exact h
            · exact absurd h h0
            · exact absurd h h1
            · exact absurd h h2
    have hres := acc_normals_spec pos rest (tri_normal_step pos e0 e1 e2 ns) hstep_inv
      (fun t ht => hcross t (by simp only [triples, List.mem_cons]; exact Or.inr ht))
    constructor
    · exact hres.1
    · intro k hk
      apply hres.2
      rcases hk with h | ⟨t, ht, hkt⟩
      · exact Or.inl (hstep_nz k (Or.inl h))
      · have ht' : t = (e0, e1, e2) ∨ t ∈ triples rest := by
          simpa only [triples, List.mem_cons] using ht
        rcases ht' with rfl | ht'
        · exact Or.inl (hstep_nz k (Or.inr (by simpa using hkt)))
        · exact Or.inr ⟨t, ht', hkt⟩

theorem from_heightmap_cross_z_neg (hm : heightmap) :
    ∀ t ∈ triples from_heightmap_indices,
      (cross ((from_heightmap_verts hm).getD t.2.1 0 -
              (from_heightmap_verts hm).getD t.1 0)
             ((from_heightmap_verts hm).getD t.2.2 0 -
              (from_heightmap_verts hm).getD t.1 0)).z < 0 := by
  intro t ht
  rw [mem_triples_from_heightmap] at ht
  obtain ⟨z, hz, x, hx, ht⟩ := ht
  rcases ht with rfl | rfl
  · have pA := from_heightmap_verts_getD hm z x (by omega) (by omega)
    have pB : (from_heightmap_verts hm).getD (z * 32 + x + 32) 0 =
        hm_vert_pos hm (z + 1) x := by
      have h : z * 32 + x + 32 = (z + 1) * 32 + x := by ring
      rw [h]
      exact from_heightmap_verts_getD hm (z + 1) x (by omega) (by omega)
    have pC : (from_heightmap_verts hm).getD (z * 32 + x + 1) 0 =
        hm_vert_pos hm z (x + 1) := by
      have h : z * 32 + x + 1 = z * 32 + (x + 1) := by ring
      rw [h]
      exact from_heightmap_verts_getD hm z (x + 1) (by omega) (by omega)
    simp only [pA, pB, pC, hm_vert_pos, cross_z_eq, Vec3_sub_x, Vec3_sub_y]
    push_cast
    ring_nf
    norm_num
  · have pA : (from_heightmap_verts hm).getD (z * 32 + x + 1) 0 =
        hm_vert_pos hm z (x + 1) := by
      have h : z * 32 + x + 1 = z * 32 + (x + 1) := by ring
      rw [h]
      exact from_heightmap_verts_getD hm z (x + 1) (by omega) (by omega)
    have pB : (from_heightmap_verts hm).getD (z * 32 + x + 32) 0 =
        hm_vert_pos hm (z + 1) x := by
      have h : z * 32 + x + 32 = (z + 1) * 32 + x := by ring
      rw [h]
      exact from_heightmap_verts_getD hm (z + 1) x (by omega) (by omega)
    have pC : (from_heightmap_verts hm).getD (z * 32 + x + 33) 0 =
        hm_vert_pos hm (z + 1) (x + 1) := by
      have h : z * 32 + x + 33 = (z + 1) * 32 + (x + 1) := by ring
      rw [h]
      exact from_heightmap_verts_getD hm (z + 1) (x + 1) (by omega) (by omega)
    simp only [pA, pB, pC, hm_vert_pos, cross_z_eq, Vec3_sub_x, Vec3_sub_y]
    push_cast
    ring_nf
    norm_num

theorem from_heightmap_coverage (k : ℕ) (hk : k < 1024) :
    ∃ t ∈ triples from_heightmap_indices, k = t.1 ∨ k = t.2.1 ∨ k = t.2.2 := by
  by_cases hA : k % 32 < 31
  · by_cases hB : k / 32 < 31
    · exact ⟨(k / 32 * 32 + k % 32, k / 32 * 32 + k % 32 + 32, k / 32 * 32 + k % 32 + 1),
        (mem_triples_from_heightmap _).mpr ⟨k / 32, hB, k % 32, hA, Or.inl rfl⟩,
        Or.inl (show k = k / 32 * 32 + k % 32 by omega)⟩
    · exact ⟨(30 * 32 + k % 32, 30 * 32 + k % 32 + 32, 30 * 32 + k % 32 + 1),
        (mem_triples_from_heightmap _).mpr ⟨30, by omega, k % 32, hA, Or.inl rfl⟩,
        Or.inr (Or.inl (show k = 30 * 32 + k % 32 + 32 by omega))⟩
  · by_cases hB : k / 32 < 31
    · exact ⟨(k / 32 * 32 + 30, k / 32 * 32 + 30 + 32, k / 32 * 32 + 30 + 1),
        (mem_triples_from_heightmap _).mpr ⟨k / 32, hB, 30, by omega, Or.inl rfl⟩,
        Or.inr (Or.inr (show k = k / 32 * 32 + 30 + 1 by omega))⟩
    · exact ⟨(30 * 32 + 30 + 1, 30 * 32 + 30 + 32, 30 * 32 + 30 + 33),
        (mem_triples_from_heightmap _).mpr ⟨30, by omega, 30, by omega, Or.inr rfl⟩,
        Or.inr (Or.inr (show k = 30 * 32 + 30 + 33 by omega))⟩

/-- C5: for every heightmap input, `from_heightmap` generates exactly
`N² = 32² = 1024` vertices and exactly `(N-1)² * 2 = 1922` triangles
(`(N-1)² * 6 = 5766` indices), and after the normal-accumulation pass every
vertex normal has unit length. -/
theorem from_heightmap_counts_and_unit_normals (hm : heightmap) :
    (from_heightmap_verts hm).length = 32 ^ 2 ∧
    from_heightmap_indices.length = 31 ^ 2 * 6 ∧
    (triples from_heightmap_indices).length = 31 ^ 2 * 2 ∧
    ∀ k, k < 32 ^ 2 → vec_len (from_heightmap_normals hm k) = 1 := by
  refine ⟨?_, ?_, ?_, ?_⟩
  · have hrow : ∀ i,
        ((fun y => rows_concat (fun x => [hm_vert_pos hm y x]) 32) i).length = 32 := by
      intro i
      rw [show ((fun y => rows_concat (fun x => [hm_vert_pos hm y x]) 32) i) =
          rows_concat (fun w => [hm_vert_pos hm i w]) 32 from rfl,
        rows_concat_length (fun w => [hm_vert_pos hm i w]) 1 (fun _ => rfl) 32]
    rw [from_heightmap_verts, rows_concat_length _ 32 hrow 32]
    norm_num
  · have hrow : ∀ z,
        ((fun z => rows_concat (fun x => quad_indices (z * 32 + x)) WM1) z).length
          = 186 := by
      intro z
      rw [show ((fun z => rows_concat (fun x => quad_indices (z * 32 + x)) WM1) z) =
          rows_concat (fun w => quad_indices (z * 32 + w)) WM1 from rfl,
        rows_concat_length _ 6 (fun _ => by simp [quad_indices]) WM1]
      norm_num [WM1]
    rw [from_heightmap_indices, rows_concat_length _ 186 hrow WM1]
    norm_num [WM1]
  · have hrow : ∀ z,
        ((fun z => rows_concat (fun x =>
          [(z * 32 + x, z * 32 + x + 32, z * 32 + x + 1),
           (z * 32 + x + 1, z * 32 + x + 32, z * 32 + x + 33)]) WM1) z).length
          = 62 := by
      intro z
      rw [show ((fun z => rows_concat (fun x =>
          [(z * 32 + x, z * 32 + x + 32, z * 32 + x + 1),
           (z * 32 + x + 1, z * 32 + x + 32, z * 32 + x + 33)]) WM1) z) =
          rows_concat (fun w =>
          [(z * 32 + w, z * 32 + w + 32, z * 32 + w + 1),
           (z * 32 + w + 1, z * 32 + w + 32, z * 32 + w + 33)]) WM1 from rfl,
        rows_concat_length (fun w =>
          [(z * 32 + w, z * 32 + w + 32, z * 32 + w + 1),
           (z * 32 + w + 1, z * 32 + w + 32, z * 32 + w + 33)]) 2 (fun _ => rfl) WM1]
      norm_num [WM1]
    rw [triples_from_heightmap_indices, rows_concat_length _ 62 hrow WM1]
    norm_num [WM1]
  · intro k hk
    have hk' : k < 1024 := by
      norm_num at hk
      exact hk
    have hspec := acc_normals_spec (fun e => (from_heightmap_verts hm).getD e 0)
      from_heightmap_indices (fun _ => 0) (fun _ => Or.inl rfl)
      (from_heightmap_cross_z_neg hm)
    have hnz : from_heightmap_normals hm k ≠ 0 :=
      hspec.2 k (Or.inr (from_heightmap_coverage k hk'))
    rcases hspec.1 k with h | h
    · exact absurd h hnz
    · have h1 : norm_sq (from_heightmap_normals hm k) = 1 := h.1
      rw [show vec_len (from_heightmap_normals hm k) =
          Real.sqrt (norm_sq (from_heightmap_normals hm k)) from rfl, h1]
      exact Real.sqrt_one

/-- Witness for `from_heightmap_counts_and_unit_normals` at the flat heightmap
of all-zero heights at chunk position (0, 0), vertex 0. -/
theorem from_heightmap_counts_and_unit_normals_witness :
    ((0 : ℕ) < 32 ^ 2) ∧
      vec_len (from_heightmap_normals ⟨(0, 0), fun _ _ => 0⟩ 0) = 1 :=
  ⟨by norm_num,
    (from_heightmap_counts_and_unit_normals ⟨(0, 0), fun _ _ => 0⟩).2.2.2 0 (by norm_num)⟩

end Machinate
